import Mathlib

/-!
Verification development for the visualization_engine repository.

The embedding models, over Nat and lists of Nat (byte values / 32-bit word
bit patterns), the data model and operations of:
  * src/src/ipc/shared_geometry.hpp / .cpp  (seqlock shared-memory channel)
  * src/tools/geometry_writer.cpp           (writeSharedGeometry)
  * src/src/vulkan/vulkan_renderer_buffers.cpp   (staging ring, transfers)
  * src/src/vulkan/vulkan_renderer_geometry.cpp  (setMesh, layout comparison)
  * src/src/vulkan/vulkan_renderer_commands.cpp  (drawFrame)

Machine integers are modeled as Nat; the quantities involved (sequence
numbers, byte counts bounded by the 4 MiB / 2 MiB / 8 MiB capacities) stay
far below 2^32 on all paths the theorems exercise, so no wraparound is
modeled.  Floating-point matrix entries are modeled as opaque 32-bit words
(Nat) since the code only ever memcpy's them.  GPU calls (buffer creation,
fence waits, command submission) are modeled as pure state updates plus an
event trace; their Vulkan failure results (resource-fatal conditions) are
outside the claims treated here and are modeled as succeeding.
-/

namespace VisEngine

/-! ## Constants (shared_geometry.hpp and Vulkan enum values used by the code) -/

def SharedGeometryMagic : Nat := 0x4D4F4547

def SharedGeometryVersion : Nat := 1

def SharedGeometryMaxAttributes : Nat := 8

def SharedGeometryMaxVertexBytes : Nat := 4 * 1024 * 1024

def SharedGeometryMaxIndexBytes : Nat := 2 * 1024 * 1024

def VK_INDEX_TYPE_UINT16 : Nat := 0

def VK_INDEX_TYPE_UINT32 : Nat := 1

def VK_PRIMITIVE_TOPOLOGY_TRIANGLE_LIST : Nat := 3

def VK_VERTEX_INPUT_RATE_VERTEX : Nat := 0

def VK_FORMAT_R32G32B32_SFLOAT : Nat := 106

/-! ## Data model (shared_geometry.hpp, geometry/mesh.hpp) -/

/-- SharedBindingDescription (shared_geometry.hpp). -/
structure SharedBindingDescription where
  binding : Nat
  stride : Nat
  inputRate : Nat
deriving DecidableEq, Repr

/-- SharedAttributeDescription (shared_geometry.hpp). -/
structure SharedAttributeDescription where
  location : Nat
  binding : Nat
  format : Nat
  offset : Nat
deriving DecidableEq, Repr

/-- SharedGeometryHeader (shared_geometry.hpp).  The fixed-size attribute
array is modeled as a total function from index to record; only indices
below SharedGeometryMaxAttributes are ever read by the code.  The three
4x4 float matrices are modeled as lists of 16 opaque 32-bit words. -/
structure SharedGeometryHeader where
  magic : Nat
  version : Nat
  sequence : Nat
  hasGeometry : Nat
  hasTransform : Nat
  vertexStride : Nat
  vertexCount : Nat
  indexCount : Nat
  indexType : Nat
  topology : Nat
  attributeCount : Nat
  bindingDescription : SharedBindingDescription
  attributes : Nat → SharedAttributeDescription
  model : List Nat
  view : List Nat
  proj : List Nat
  consumerSequence : Nat

/-- SharedGeometryBuffer (shared_geometry.hpp): header + raw payload bytes. -/
structure SharedGeometryBuffer where
  header : SharedGeometryHeader
  vertexData : List Nat
  indexData : List Nat

/-- VkVertexInputBindingDescription as used by GeometryData (mesh.hpp). -/
structure VkVertexInputBindingDescription where
  binding : Nat
  stride : Nat
  inputRate : Nat
deriving DecidableEq, Repr

/-- VkVertexInputAttributeDescription as used by GeometryData (mesh.hpp). -/
structure VkVertexInputAttributeDescription where
  location : Nat
  binding : Nat
  format : Nat
  offset : Nat
deriving DecidableEq, Repr

/-- GeometryData (mesh.hpp): raw vertex/index bytes plus layout metadata.
Defaults mirror the in-class initializers. -/
structure GeometryData where
  vertexData : List Nat := []
  bindingDescription : VkVertexInputBindingDescription :=
    { binding := 0, stride := 0, inputRate := 0 }
  attributeDescriptions : List VkVertexInputAttributeDescription := []
  topology : Nat := VK_PRIMITIVE_TOPOLOGY_TRIANGLE_LIST
  indexData : List Nat := []
  indexType : Nat := VK_INDEX_TYPE_UINT16
  vertexCount : Nat := 0
  indexCount : Nat := 0
deriving DecidableEq, Repr

/-- TransformData (geometry/transform.hpp): three 4x4 matrices, each modeled
as a list of 16 opaque words. -/
structure TransformData where
  model : List Nat := []
  view : List Nat := []
  proj : List Nat := []
deriving DecidableEq, Repr

/-- SharedGeometryUpdate (shared_geometry.hpp). -/
structure SharedGeometryUpdate where
  geometry : GeometryData := {}
  transform : TransformData := {}
  hasGeometry : Bool := false
  hasTransform : Bool := false
  sequence : Nat := 0
deriving Repr

/-! ## SharedGeometryReader::tryRead (shared_geometry.cpp, lines 85-208)

This is the sequential model of tryRead: the shared buffer does not change
during the call, so the second sequence read (seq2) necessarily returns the
same value as the first (seq1).  The interleaved seqlock protocol, where the
writer may run concurrently with the reader's header copy, is modeled
separately below (namespace Seqlock).

The result packages the returned Bool, the reader's lastSequence member
after the call, the outUpdate out-parameter after the call, and the shared
buffer after the call (tryRead writes header.consumerSequence on success). -/

structure TryReadResult where
  ok : Bool
  lastSequence : Nat
  update : SharedGeometryUpdate
  buffer : SharedGeometryBuffer

/-- The index stride chosen by the code: 4 bytes for VK_INDEX_TYPE_UINT32,
2 bytes otherwise (shared_geometry.cpp line 136). -/
def indexStrideOf (indexType : Nat) : Nat :=
  if indexType = VK_INDEX_TYPE_UINT32 then 4 else 2

/-- SharedGeometryReader::tryRead, translated line by line from
shared_geometry.cpp (the buffer-not-open early return is omitted: the model
always has a mapped buffer). -/
def tryRead (buf : SharedGeometryBuffer) (lastSequence : Nat)
    (outUpdate : SharedGeometryUpdate) : TryReadResult :=
  let seq1 := buf.header.sequence
  if seq1 = lastSequence ∨ seq1 % 2 ≠ 0 then
    ⟨false, lastSequence, outUpdate, buf⟩
  else
    let header := buf.header
    let seq2 := buf.header.sequence
    if seq1 ≠ seq2 ∨ seq2 % 2 ≠ 0 then
      ⟨false, lastSequence, outUpdate, buf⟩
    else if header.magic ≠ SharedGeometryMagic ∨
        header.version ≠ SharedGeometryVersion then
      ⟨false, lastSequence, outUpdate, buf⟩
    else
      let hasGeometry := header.hasGeometry ≠ 0
      let hasTransform := header.hasTransform ≠ 0
      if ¬hasGeometry ∧ ¬hasTransform then
        ⟨false, lastSequence, outUpdate, buf⟩
      else if hasGeometry ∧
          (header.attributeCount = 0 ∨
           header.attributeCount > SharedGeometryMaxAttributes) then
        ⟨false, lastSequence, outUpdate, buf⟩
      else if hasGeometry ∧
          (header.vertexCount * header.vertexStride = 0 ∨
           header.vertexCount * header.vertexStride > SharedGeometryMaxVertexBytes) then
        ⟨false, lastSequence, outUpdate, buf⟩
      else if hasGeometry ∧ header.indexCount > 0 ∧
          header.indexCount * indexStrideOf header.indexType > SharedGeometryMaxIndexBytes then
        ⟨false, lastSequence, outUpdate, buf⟩
      else
        let vertexBytes := header.vertexCount * header.vertexStride
        let indexBytes :=
          if header.indexCount > 0 then header.indexCount * indexStrideOf header.indexType
          else 0
        let upd1 :=
          if hasGeometry then
            let geometry : GeometryData :=
              { vertexData := buf.vertexData.take vertexBytes
                bindingDescription :=
                  { binding := header.bindingDescription.binding
                    stride := header.bindingDescription.stride
                    inputRate := header.bindingDescription.inputRate }
                attributeDescriptions :=
                  (List.range header.attributeCount).map fun i =>
                    { location := (header.attributes i).location
                      binding := (header.attributes i).binding
                      format := (header.attributes i).format
                      offset := (header.attributes i).offset }
                topology := header.topology
                indexData := if indexBytes > 0 then buf.indexData.take indexBytes else []
                indexType := header.indexType
                vertexCount := header.vertexCount
                indexCount := if indexBytes > 0 then header.indexCount else 0 }
            { outUpdate with geometry := geometry, hasGeometry := true }
          else
            { outUpdate with hasGeometry := false }
        let upd2 :=
          if hasTransform then
            { upd1 with
                transform := { model := header.model, view := header.view, proj := header.proj }
                hasTransform := true }
          else
            { upd1 with hasTransform := false }
        ⟨true, seq1, { upd2 with sequence := seq1 },
          { buf with header := { buf.header with consumerSequence := seq1 } }⟩

/-! ## writeSharedGeometry (tools/geometry_writer.cpp, lines 39-100)

A Vertex is a 24-byte record (glm::vec3 pos + glm::vec3 color; sizeof is
24, offsetof pos = 0, offsetof color = 12); its bytes are opaque here.
Indices are uint16 values serialized little-endian, two bytes each. -/

/-- A Vertex as an opaque 24-byte record. -/
structure Vertex where
  bytes : List Nat
deriving DecidableEq, Repr

def sizeofVertex : Nat := 24

/-- The byte image of a contiguous std::vector of Vertex. -/
def serializeVertices (vs : List Vertex) : List Nat :=
  (vs.map Vertex.bytes).flatten

/-- The byte image of a contiguous std::vector of uint16_t (little-endian). -/
def serializeIndices (idx : List Nat) : List Nat :=
  (idx.map fun i => [i % 256, i / 256 % 256]).flatten

/-- memcpy of a block into the front of a fixed region: the block replaces
the leading bytes, the rest of the region is untouched. -/
def overwriteFront (block region : List Nat) : List Nat :=
  block ++ region.drop block.length

/-- writeSharedGeometry (geometry_writer.cpp).  The seqlock sequence is
bumped to seq+1 (odd) before the field writes and to seq+2 (even) after;
in this sequential model only the final buffer state is observable, the
odd intermediate state matters only in the interleaved model below.
The writer never touches consumerSequence. -/
def writeSharedGeometry (buf : SharedGeometryBuffer) (vertices : List Vertex)
    (indices : List Nat) (transform : TransformData) (writeGeometry : Bool) :
    SharedGeometryBuffer :=
  let seq := buf.header.sequence
  let h0 := buf.header
  let hdr : SharedGeometryHeader :=
    if writeGeometry then
      { h0 with
          magic := SharedGeometryMagic
          version := SharedGeometryVersion
          hasGeometry := 1
          hasTransform := 1
          vertexStride := sizeofVertex
          vertexCount := vertices.length
          indexCount := indices.length
          indexType := VK_INDEX_TYPE_UINT16
          topology := VK_PRIMITIVE_TOPOLOGY_TRIANGLE_LIST
          attributeCount := 2
          bindingDescription :=
            { binding := 0, stride := sizeofVertex, inputRate := VK_VERTEX_INPUT_RATE_VERTEX }
          attributes := fun i =>
            if i = 0 then
              { location := 0, binding := 0, format := VK_FORMAT_R32G32B32_SFLOAT, offset := 0 }
            else if i = 1 then
              { location := 1, binding := 0, format := VK_FORMAT_R32G32B32_SFLOAT, offset := 12 }
            else h0.attributes i
          model := transform.model
          view := transform.view
          proj := transform.proj
          sequence := seq + 2 }
    else
      { h0 with
          magic := SharedGeometryMagic
          version := SharedGeometryVersion
          hasGeometry := 0
          hasTransform := 1
          vertexStride := 0
          vertexCount := 0
          indexCount := 0
          attributeCount := 0
          model := transform.model
          view := transform.view
          proj := transform.proj
          sequence := seq + 2 }
  { header := hdr
    vertexData :=
      if writeGeometry then overwriteFront (serializeVertices vertices) buf.vertexData
      else buf.vertexData
    indexData :=
      if writeGeometry then overwriteFront (serializeIndices indices) buf.indexData
      else buf.indexData }

/-! ## VulkanRenderer model (vulkan_renderer.hpp state, buffers/geometry/commands)

The renderer state keeps the fields the claims are about.  GPU object
handles (buffers, pipelines, fences, command buffers) are fresh Nat ids
drawn from a counter.  Each operation returns the post state together with
an event trace recording the order of the externally visible actions. -/

def STAGING_RING_SIZE : Nat := 8 * 1024 * 1024

def MAX_FRAMES_IN_FLIGHT : Nat := 2

/-- PendingTransfer (vulkan_renderer.hpp line 231): a fence, its command
buffer, and the staging-ring region read by the in-flight copy. -/
structure PendingTransfer where
  fence : Nat
  commandBuffer : Nat
  ringOffset : Nat
  ringSize : Nat
deriving DecidableEq, Repr

/-- Externally visible actions of the renderer, in program order. -/
inductive REvent where
  | waitFence (slot : Nat)
  | resetFence (slot : Nat)
  | waitTransferFence (fence : Nat)
  | memcpyRing (offset size : Nat)
  | submitTransfer (fence srcOffset size dst : Nat)
  | destroyBuffer (b : Nat)
  | createBuf (b : Nat)
  | destroyPipeline (p : Nat)
  | createPipeline (p : Nat)
  | acquireImage
  | resetCommandBuffer
  | updateUniform
  | recordCommands
  | submitDraw
  | present
  | recreateSwapchain
deriving DecidableEq, Repr

/-- The renderer state fields relevant to the claims. -/
structure RendererState where
  mesh : GeometryData := {}
  vertexBuffer : Option Nat := none
  indexBuffer : Option Nat := none
  graphicsPipeline : Option Nat := none
  nextHandle : Nat := 0
  pendingTransfers : List PendingTransfer := []
  stagingRing : List Nat := List.replicate STAGING_RING_SIZE 0
  stagingRingOffset : Nat := 0
  inFlightFencesSignaled : List Bool := List.replicate MAX_FRAMES_IN_FLIGHT true
  currentFrame : Nat := 0
  framebufferResized : Bool := false

/-- Result of a renderer operation: `ok` carries the post state, returned
value and event trace; `err` models a thrown std::runtime_error and carries
the state at the throw point (C++ leaves the object as it was then). -/
inductive OpResult (α : Type) where
  | ok (s : RendererState) (val : α) (events : List REvent)
  | err (s : RendererState) (msg : String) (events : List REvent)

/-- Whether `ringOverlapCond` holds: the reclaim condition computed for one
pending transfer in the scan loop of stagingRingWrite
(vulkan_renderer_buffers.cpp lines 224-244).  `oldOffset` is the ring
cursor before the wrap decision (the member stagingRingOffset). -/
def ringOverlapCond (writeOffset writeEnd : Nat) (wrapped : Bool) (oldOffset : Nat)
    (t : PendingTransfer) : Bool :=
  let tStart := t.ringOffset
  let tEnd := tStart + t.ringSize
  let overlaps := decide (writeOffset < tEnd) && decide (tStart < writeEnd)
  if wrapped && !overlaps then decide (tStart ≥ oldOffset) else overlaps

/-- memcpy into the ring at `offset`. -/
def writeRingAt (ring : List Nat) (offset : Nat) (data : List Nat) : List Nat :=
  ring.take offset ++ data ++ ring.drop (offset + data.length)

/-- VulkanRenderer::stagingRingWrite (vulkan_renderer_buffers.cpp lines
209-250).  Returns the write offset.  The transfers whose region overlaps
the candidate range are waited on (waitTransferFence events) and removed
before the memcpy event. -/
def stagingRingWrite (s : RendererState) (data : List Nat) : OpResult Nat :=
  let size := data.length
  if size > STAGING_RING_SIZE then
    .err s "Transfer size exceeds staging ring buffer capacity!" []
  else
    let wrapped := decide (s.stagingRingOffset + size > STAGING_RING_SIZE)
    let writeOffset := if wrapped then 0 else s.stagingRingOffset
    let writeEnd := writeOffset + size
    let reclaimed := s.pendingTransfers.filter fun t =>
      ringOverlapCond writeOffset writeEnd wrapped s.stagingRingOffset t
    let surviving := s.pendingTransfers.filter fun t =>
      !(ringOverlapCond writeOffset writeEnd wrapped s.stagingRingOffset t)
    .ok
      { s with
          pendingTransfers := surviving
          stagingRing := writeRingAt s.stagingRing writeOffset data
          stagingRingOffset := writeEnd }
      writeOffset
      (reclaimed.map (fun t => .waitTransferFence t.fence) ++ [.memcpyRing writeOffset size])

/-- VulkanRenderer::flushCompletedTransfers (lines 172-185): drop every
pending transfer whose fence the device has already signaled; `completed`
is the environment's fence-status oracle (vkGetFenceStatus). -/
def flushCompletedTransfers (s : RendererState) (completed : Nat → Bool) : RendererState :=
  { s with pendingTransfers := s.pendingTransfers.filter fun t => !completed t.fence }

/-- VulkanRenderer::waitAllTransfers (lines 192-199): wait on every pending
fence, then clear the list. -/
def waitAllTransfers (s : RendererState) : RendererState × List REvent :=
  ({ s with pendingTransfers := [] },
   s.pendingTransfers.map fun t => .waitTransferFence t.fence)

/-- VulkanRenderer::transferToDeviceLocal (lines 262-309): flush completed
transfers, stage the bytes in the ring, submit an asynchronous copy with a
fresh fence, and record the pending transfer. -/
def transferToDeviceLocal (s : RendererState) (completed : Nat → Bool)
    (dst : Nat) (data : List Nat) : OpResult Unit :=
  let s1 := flushCompletedTransfers s completed
  match stagingRingWrite s1 data with
  | .err s2 msg ev => .err s2 msg ev
  | .ok s2 srcOffset ev =>
      let cmdBuf := s2.nextHandle
      let fence := s2.nextHandle + 1
      .ok
        { s2 with
            nextHandle := s2.nextHandle + 2
            pendingTransfers :=
              s2.pendingTransfers ++ [⟨fence, cmdBuf, srcOffset, data.length⟩] }
        ()
        (ev ++ [.submitTransfer fence srcOffset data.length dst])

/-- VulkanRenderer::createVertexBuffer (lines 316-330). -/
def createVertexBuffer (s : RendererState) (completed : Nat → Bool) : OpResult Unit :=
  let geometry := s.mesh
  let bufferSize := geometry.vertexData.length
  if bufferSize = 0 then
    .ok s () []
  else
    let b := s.nextHandle
    let s1 := { s with nextHandle := s.nextHandle + 1, vertexBuffer := some b }
    match transferToDeviceLocal s1 completed b geometry.vertexData with
    | .err s2 msg ev => .err s2 msg (REvent.createBuf b :: ev)
    | .ok s2 _ ev => .ok s2 () (REvent.createBuf b :: ev)

/-- VulkanRenderer::createIndexBuffer (lines 337-355). -/
def createIndexBuffer (s : RendererState) (completed : Nat → Bool) : OpResult Unit :=
  let geometry := s.mesh
  if geometry.indexCount = 0 then
    .ok s () []
  else
    let bufferSize := geometry.indexData.length
    if bufferSize = 0 then
      .ok s () []
    else
      let b := s.nextHandle
      let s1 := { s with nextHandle := s.nextHandle + 1, indexBuffer := some b }
      match transferToDeviceLocal s1 completed b geometry.indexData with
      | .err s2 msg ev => .err s2 msg (REvent.createBuf b :: ev)
      | .ok s2 _ ev => .ok s2 () (REvent.createBuf b :: ev)

/-- VulkanRenderer::createGraphicsPipeline (vulkan_renderer_pipeline.cpp
line 122): build a new pipeline from the current mesh layout. -/
def createGraphicsPipeline (s : RendererState) : RendererState × List REvent :=
  let p := s.nextHandle
  ({ s with nextHandle := s.nextHandle + 1, graphicsPipeline := some p },
   [.createPipeline p])

/-- VulkanRenderer::recreateGraphicsPipeline (vulkan_renderer_pipeline.cpp
lines 89-99): destroy the existing pipeline, then create it afresh. -/
def recreateGraphicsPipeline (s : RendererState) : RendererState × List REvent :=
  let (s1, ev1) :=
    match s.graphicsPipeline with
    | some p => ({ s with graphicsPipeline := none }, [REvent.destroyPipeline p])
    | none => (s, [])
  let (s2, ev2) := createGraphicsPipeline s1
  (s2, ev1 ++ ev2)

/-! ### Layout comparison and setMesh (vulkan_renderer_geometry.cpp) -/

/-- areBindingsEqual (vulkan_renderer_geometry.cpp lines 15-17). -/
def areBindingsEqual (a b : VkVertexInputBindingDescription) : Bool :=
  a.binding == b.binding && a.stride == b.stride && a.inputRate == b.inputRate

/-- The per-attribute field comparison of areAttributesEqual's loop body. -/
def attrFieldsEqual (x y : VkVertexInputAttributeDescription) : Bool :=
  x.binding == y.binding && x.location == y.location &&
  x.format == y.format && x.offset == y.offset

/-- areAttributesEqual (vulkan_renderer_geometry.cpp lines 24-37). -/
def areAttributesEqual (a b : List VkVertexInputAttributeDescription) : Bool :=
  a.length == b.length && (a.zip b).all fun xy => attrFieldsEqual xy.1 xy.2

/-- VulkanRenderer::isVertexLayoutDifferent (lines 45-51). -/
def isVertexLayoutDifferent (s : RendererState) (other : GeometryData) : Bool :=
  let current := s.mesh
  !areBindingsEqual current.bindingDescription other.bindingDescription ||
  !areAttributesEqual current.attributeDescriptions other.attributeDescriptions

/-- Destroy the old vertex/index buffers (setMesh lines 106-115). -/
def destroyMeshBuffers (s : RendererState) : RendererState × List REvent :=
  let (s1, ev1) :=
    match s.vertexBuffer with
    | some b => ({ s with vertexBuffer := none }, [REvent.destroyBuffer b])
    | none => (s, [])
  let (s2, ev2) :=
    match s1.indexBuffer with
    | some b => ({ s1 with indexBuffer := none }, [REvent.destroyBuffer b])
    | none => (s1, [])
  (s2, ev1 ++ ev2)

/-- The final upload phase of setMesh (vulkan_renderer_geometry.cpp lines
126-129): create and fill the vertex buffer, then the index buffer when
indices are present. -/
def uploadMeshBuffers (s4 : RendererState) (completed : Nat → Bool) : OpResult Unit :=
  match createVertexBuffer s4 completed with
  | .err s5 msg ev => .err s5 msg ev
  | .ok s5 _ evVB =>
      if s5.mesh.indexCount > 0 then
        match createIndexBuffer s5 completed with
        | .err s6 msg ev => .err s6 msg (evVB ++ ev)
        | .ok s6 _ evIB => .ok s6 () (evVB ++ evIB)
      else
        .ok s5 () evVB

/-- Prefix the event trace of a result with already-performed events. -/
def prependEvents (ev : List REvent) : OpResult Unit → OpResult Unit
  | .ok s v tail => .ok s v (ev ++ tail)
  | .err s msg tail => .err s msg (ev ++ tail)

/-- The body of setMesh after validation succeeded (vulkan_renderer_
geometry.cpp lines 98-130): layout comparison, per-frame fence waits,
transfer drain, buffer destruction, mesh replacement, pipeline decision,
buffer recreation and upload.  `validated` already carries the computed
vertex/index counts. -/
def setMeshApply (s : RendererState) (completed : Nat → Bool)
    (validated : GeometryData) : OpResult Unit :=
  let recreatePipeline :=
    isVertexLayoutDifferent s validated || s.mesh.topology != validated.topology
  let evWait := (List.range MAX_FRAMES_IN_FLIGHT).map REvent.waitFence
  let s1 := (waitAllTransfers s).1
  let evDrain := (waitAllTransfers s).2
  let s2 := (destroyMeshBuffers s1).1
  let evDestroy := (destroyMeshBuffers s1).2
  let s3 := { s2 with mesh := validated }
  let s4 :=
    if s3.graphicsPipeline = none then (createGraphicsPipeline s3).1
    else if recreatePipeline then (recreateGraphicsPipeline s3).1
    else s3
  let evPipe :=
    if s3.graphicsPipeline = none then (createGraphicsPipeline s3).2
    else if recreatePipeline then (recreateGraphicsPipeline s3).2
    else []
  prependEvents (evWait ++ evDrain ++ evDestroy ++ evPipe)
    (uploadMeshBuffers s4 completed)

/-- VulkanRenderer::setMesh (vulkan_renderer_geometry.cpp lines 72-130),
translated in statement order: the validation block (all four throws
precede any state mutation), then the count computation and the body. -/
def setMesh (s : RendererState) (completed : Nat → Bool) (newMesh : GeometryData) :
    OpResult Unit :=
  let validated := newMesh
  if validated.bindingDescription.stride = 0 then
    .err s "Geometry must define a valid stride." []
  else if validated.vertexData = [] then
    .err s "Geometry must have vertexData." []
  else if validated.vertexData.length % validated.bindingDescription.stride ≠ 0 then
    .err s "vertexData size does not match stride." []
  else
    let validated :=
      { validated with
          vertexCount := validated.vertexData.length / validated.bindingDescription.stride }
    if validated.indexData ≠ [] ∧
        validated.indexData.length % indexStrideOf validated.indexType ≠ 0 then
      .err s "indexData size does not match index type." []
    else
      let validated :=
        if validated.indexData ≠ [] then
          { validated with
              indexCount := validated.indexData.length / indexStrideOf validated.indexType }
        else
          { validated with indexCount := 0 }
      setMeshApply s completed validated

/-- No pipeline-destroy or pipeline-create event occurs in the trace. -/
def noPipelineEvents (ev : List REvent) : Prop :=
  ∀ q, REvent.destroyPipeline q ∉ ev ∧ REvent.createPipeline q ∉ ev

/-! ### drawFrame (vulkan_renderer_commands.cpp lines 177-238) -/

/-- The VkResult values drawFrame inspects. -/
inductive AcquireResult where
  | success
  | suboptimal
  | outOfDate
  | otherError
deriving DecidableEq, Repr

/-- VulkanRenderer::recreateSwapChain (vulkan_renderer.cpp lines 162-184):
rebuilds the swapchain resources and, only if a pipeline already exists,
recreates it.  It touches neither currentFrame nor the in-flight fences. -/
def recreateSwapChain (s : RendererState) : RendererState × List REvent :=
  if s.graphicsPipeline ≠ none then
    let (s1, ev1) := recreateGraphicsPipeline s
    (s1, REvent.recreateSwapchain :: ev1)
  else
    (s, [REvent.recreateSwapchain])

/-- Set the signaled status of one in-flight fence slot. -/
def setFenceSignaled (s : RendererState) (slot : Nat) (v : Bool) : RendererState :=
  { s with inFlightFencesSignaled := s.inFlightFencesSignaled.set slot v }

/-- VulkanRenderer::drawFrame (vulkan_renderer_commands.cpp lines 177-238).
`acq` and `pres` are the environment's results for vkAcquireNextImageKHR
and vkQueuePresentKHR.  vkWaitForFences leaves the fence signaled;
vkResetFences unsignals it; the fence armed by vkQueueSubmit stays
unsignaled until a later wait observes the GPU completing. -/
def drawFrame (s : RendererState) (acq pres : AcquireResult) : OpResult Unit :=
  let s0 := setFenceSignaled s s.currentFrame true
  let ev0 := [REvent.waitFence s.currentFrame, REvent.acquireImage]
  if acq = .outOfDate then
    let (s1, ev1) := recreateSwapChain s0
    .ok s1 () (ev0 ++ ev1)
  else if acq ≠ .success ∧ acq ≠ .suboptimal then
    .err s0 "Failed to acquire swap chain image!" ev0
  else
    let s1 := setFenceSignaled s0 s.currentFrame false
    let ev1 := ev0 ++ [REvent.resetFence s.currentFrame, REvent.resetCommandBuffer,
      REvent.updateUniform, REvent.recordCommands, REvent.submitDraw, REvent.present]
    if pres = .outOfDate ∨ pres = .suboptimal ∨ s1.framebufferResized then
      let s2 := { s1 with framebufferResized := false }
      let (s3, ev2) := recreateSwapChain s2
      .ok { s3 with currentFrame := (s3.currentFrame + 1) % MAX_FRAMES_IN_FLIGHT } ()
        (ev1 ++ ev2)
    else if pres ≠ .success then
      .err s1 "Failed to present swap chain image!" ev1
    else
      .ok { s1 with currentFrame := (s1.currentFrame + 1) % MAX_FRAMES_IN_FLIGHT } () ev1

/-! ### Sequences of staging-ring operations (for the ring-safety claim)

A run applies writes and device transfers in order, recording for every
memcpy into the ring the range written and the transfers still pending at
that instant.  A thrown error stops the run (the exception propagates). -/

/-- One operation touching the staging ring. -/
inductive RingOp where
  | write (data : List Nat)
  | transfer (completed : Nat → Bool) (dst : Nat) (data : List Nat)

/-- The size a ring operation stages. -/
def RingOp.size : RingOp → Nat
  | .write data => data.length
  | .transfer _ _ data => data.length

/-- Record of one memcpy into the ring: the range written and the
transfers still outstanding (unreclaimed) at the moment of the memcpy. -/
structure WriteRecord where
  offset : Nat
  size : Nat
  pendingAtWrite : List PendingTransfer
deriving Repr

/-- The write record produced by one stagingRingWrite call on state `s`
(present exactly when the call does not throw). -/
def writeRecordOf (s : RendererState) (data : List Nat) : Option WriteRecord :=
  match stagingRingWrite s data with
  | .ok s' offset _ => some ⟨offset, data.length, s'.pendingTransfers⟩
  | .err _ _ _ => none

/-- Apply one ring operation. -/
def applyRingOp (s : RendererState) (op : RingOp) : OpResult Unit :=
  match op with
  | .write data =>
      match stagingRingWrite s data with
      | .ok s' _ ev => .ok s' () ev
      | .err s' msg ev => .err s' msg ev
  | .transfer completed dst data => transferToDeviceLocal s completed dst data

/-- Run a sequence of ring operations, collecting the write records; the
run stops at the first thrown error. -/
def runRingOps (s : RendererState) : List RingOp → RendererState × List WriteRecord
  | [] => (s, [])
  | op :: ops =>
      let pre :=
        match op with
        | .write data => writeRecordOf s data
        | .transfer completed _ data => writeRecordOf (flushCompletedTransfers s completed) data
      match applyRingOp s op with
      | .err s' _ _ => (s', pre.toList)
      | .ok s' _ _ =>
          let (s'', recs) := runRingOps s' ops
          (s'', pre.toList ++ recs)

/-! ## Interleaved seqlock protocol (writeSharedGeometry vs tryRead)

Small-step model of the writer's publish (geometry_writer.cpp lines 39-100)
interleaved with the reader's header acquisition (shared_geometry.cpp lines
85-105).  The header fields written by a publish are abstracted to a list
of `n` word-sized cells, written one cell per step between the odd and even
sequence updates; the reader copies them one cell per step between its two
sequence reads.  The reader's consumerSequence store is not part of these
cells (the writer's publish never writes consumerSequence), and the payload
arrays follow the same protocol as the header cells, so `n` covers both.

Ghost state: `hist` records every finished publish as (final even sequence,
complete header); `reads` records every tryRead that returned true as
(sequence acted on, header copy it decoded). -/

namespace Seqlock

/-- The shared-memory cells: the seqlock counter and the published cells. -/
structure Shared where
  seq : Nat
  fields : List Nat
deriving DecidableEq, Repr

/-- Writer program counter: between publishes, or mid-publish with `i`
cells already stored. -/
inductive WriterPC where
  | idle
  | writing (h : List Nat) (i : Nat)
deriving DecidableEq, Repr

/-- Writer thread: program counter plus the queue of headers it will
publish (one writeSharedGeometry call each). -/
structure WriterState where
  pc : WriterPC
  pending : List (List Nat)
deriving DecidableEq, Repr

/-- Reader program counter: between tryRead calls, or mid-copy having read
seq1 and copied `i` cells into `locals`. -/
inductive ReaderPC where
  | idle
  | copying (seq1 : Nat) (i : Nat) (locals : List Nat)
deriving DecidableEq, Repr

/-- Reader thread: program counter, lastSequence member, and the ghost list
of successful reads. -/
structure ReaderState where
  pc : ReaderPC
  lastSequence : Nat
  reads : List (Nat × List Nat)
deriving DecidableEq, Repr

/-- Whole-system configuration, including the ghost publish history. -/
structure Config where
  shared : Shared
  writer : WriterState
  reader : ReaderState
  hist : List (Nat × List Nat)
deriving DecidableEq, Repr

/-- One writer step (geometry_writer.cpp): from idle, bump the sequence to
odd and start the next queued publish; mid-publish, store the next header
cell; after the last cell, bump the sequence to even and record the
finished publish in the ghost history. -/
def writerStep (n : Nat) (c : Config) : Config :=
  match c.writer.pc with
  | .idle =>
      match c.writer.pending with
      | [] => c
      | h :: rest =>
          { c with
              shared := { c.shared with seq := c.shared.seq + 1 }
              writer := ⟨.writing h 0, rest⟩ }
  | .writing h i =>
      if i < n then
        { c with
            shared := { c.shared with fields := c.shared.fields.set i (h.getD i 0) }
            writer := ⟨.writing h (i + 1), c.writer.pending⟩ }
      else
        { c with
            shared := { c.shared with seq := c.shared.seq + 1 }
            writer := ⟨.idle, c.writer.pending⟩
            hist := (c.shared.seq + 1, h) :: c.hist }

/-- One reader step (shared_geometry.cpp lines 91-105): from idle, read
seq1 and abort unless it is even and new; mid-copy, read the next header
cell; after the last cell, re-read the sequence and either abort (torn) or
succeed, recording the read and updating lastSequence. -/
def readerStep (n : Nat) (c : Config) : Config :=
  match c.reader.pc with
  | .idle =>
      let seq1 := c.shared.seq
      if seq1 = c.reader.lastSequence ∨ seq1 % 2 ≠ 0 then c
      else { c with reader := { c.reader with pc := .copying seq1 0 [] } }
  | .copying seq1 i locals =>
      if i < n then
        { c with
            reader :=
              { c.reader with
                  pc := .copying seq1 (i + 1) (locals ++ [c.shared.fields.getD i 0]) } }
      else
        let seq2 := c.shared.seq
        if seq1 ≠ seq2 ∨ seq2 % 2 ≠ 0 then
          { c with reader := { c.reader with pc := .idle } }
        else
          { c with
              reader := ⟨.idle, seq1, (seq1, locals) :: c.reader.reads⟩ }

/-- Which thread moves. -/
inductive Who where
  | w
  | r
deriving DecidableEq, Repr

/-- One interleaving step. -/
def step (n : Nat) (c : Config) : Who → Config
  | .w => writerStep n c
  | .r => readerStep n c

/-- Run a schedule of interleaved writer/reader steps. -/
def run (n : Nat) (c : Config) (sched : List Who) : Config :=
  sched.foldl (step n) c

/-- Initial configuration: zeroed shared memory (geometry_writer.cpp
memset), writer idle with its queue of publishes, reader idle with
lastSequence 0. -/
def init (n : Nat) (pubs : List (List Nat)) : Config :=
  { shared := ⟨0, List.replicate n 0⟩
    writer := ⟨.idle, pubs⟩
    reader := ⟨.idle, 0, []⟩
    hist := [] }

end Seqlock

/-! ## Auxiliary definitions used by the theorems -/

/-- The renderer state after an operation, whether it returned or threw. -/
def OpResult.state {α : Type} : OpResult α → RendererState
  | .ok s _ _ => s
  | .err s _ _ => s

/-- The event trace of an operation, whether it returned or threw. -/
def OpResult.events {α : Type} : OpResult α → List REvent
  | .ok _ _ ev => ev
  | .err _ _ ev => ev

/-- The rejection causes of tryRead, one per early `return false`. -/
inductive RejectReason where
  | notNewOrOdd
  | torn
  | badMagicVersion
  | noContent
  | badAttributeCount
  | badVertexBytes
  | badIndexBytes
deriving DecidableEq, Repr

/-- The first failing check of tryRead, following the source's control flow
(shared_geometry.cpp lines 91-141); `none` means the read succeeds. -/
def tryReadRejectReason (buf : SharedGeometryBuffer) (lastSequence : Nat) :
    Option RejectReason :=
  let seq1 := buf.header.sequence
  if seq1 = lastSequence ∨ seq1 % 2 ≠ 0 then some .notNewOrOdd
  else
    let header := buf.header
    let seq2 := buf.header.sequence
    if seq1 ≠ seq2 ∨ seq2 % 2 ≠ 0 then some .torn
    else if header.magic ≠ SharedGeometryMagic ∨
        header.version ≠ SharedGeometryVersion then some .badMagicVersion
    else if header.hasGeometry = 0 ∧ header.hasTransform = 0 then some .noContent
    else if header.hasGeometry ≠ 0 ∧
        (header.attributeCount = 0 ∨
         header.attributeCount > SharedGeometryMaxAttributes) then some .badAttributeCount
    else if header.hasGeometry ≠ 0 ∧
        (header.vertexCount * header.vertexStride = 0 ∨
         header.vertexCount * header.vertexStride > SharedGeometryMaxVertexBytes) then
      some .badVertexBytes
    else if header.hasGeometry ≠ 0 ∧ header.indexCount > 0 ∧
        header.indexCount * indexStrideOf header.indexType > SharedGeometryMaxIndexBytes then
      some .badIndexBytes
    else none

/-- Modelled from the claim's words (claim C4): the conditions under which,
per the claim, a stably observed header is rejected. -/
def c4ClaimedRejectCond (h : SharedGeometryHeader) : Prop :=
  h.magic ≠ SharedGeometryMagic ∨ h.version ≠ SharedGeometryVersion ∨
  (h.hasGeometry ≠ 0 ∧
    (h.attributeCount = 0 ∨ h.attributeCount > SharedGeometryMaxAttributes ∨
     h.vertexCount * h.vertexStride = 0 ∨
     h.vertexCount * h.vertexStride > SharedGeometryMaxVertexBytes ∨
     (h.indexCount > 0 ∧
      h.indexCount * indexStrideOf h.indexType > SharedGeometryMaxIndexBytes)))

/-- Modelled from the amended claim C4: the checks in the claimed order,
with the no-content rejection inserted after the magic/version check. -/
def c4AmendedOrderedReason (h : SharedGeometryHeader) : Option RejectReason :=
  if h.magic ≠ SharedGeometryMagic ∨ h.version ≠ SharedGeometryVersion then
    some .badMagicVersion
  else if h.hasGeometry = 0 ∧ h.hasTransform = 0 then some .noContent
  else if h.hasGeometry ≠ 0 ∧
      (h.attributeCount = 0 ∨ h.attributeCount > SharedGeometryMaxAttributes) then
    some .badAttributeCount
  else if h.hasGeometry ≠ 0 ∧
      (h.vertexCount * h.vertexStride = 0 ∨
       h.vertexCount * h.vertexStride > SharedGeometryMaxVertexBytes) then
    some .badVertexBytes
  else if h.hasGeometry ≠ 0 ∧ h.indexCount > 0 ∧
      h.indexCount * indexStrideOf h.indexType > SharedGeometryMaxIndexBytes then
    some .badIndexBytes
  else none

/-- The four validation conditions under which setMesh throws before any
state mutation (vulkan_renderer_geometry.cpp lines 75-91). -/
def setMeshValidationFails (g : GeometryData) : Prop :=
  g.bindingDescription.stride = 0 ∨
  g.vertexData = [] ∨
  g.vertexData.length % g.bindingDescription.stride ≠ 0 ∨
  (g.indexData ≠ [] ∧ g.indexData.length % indexStrideOf g.indexType ≠ 0)

/-- An all-zero attribute record (zero-initialized shared memory). -/
def zeroAttr : SharedAttributeDescription := ⟨0, 0, 0, 0⟩

/-- A shared buffer whose stable header is magic/version-valid but carries
neither geometry nor transform (hasGeometry = hasTransform = 0). -/
def noContentBuf : SharedGeometryBuffer :=
  { header :=
      { magic := SharedGeometryMagic
        version := SharedGeometryVersion
        sequence := 2
        hasGeometry := 0
        hasTransform := 0
        vertexStride := 0
        vertexCount := 0
        indexCount := 0
        indexType := 0
        topology := 0
        attributeCount := 0
        bindingDescription := ⟨0, 0, 0⟩
        attributes := fun _ => zeroAttr
        model := List.replicate 16 0
        view := List.replicate 16 0
        proj := List.replicate 16 0
        consumerSequence := 0 }
    vertexData := []
    indexData := [] }

/-- Like noContentBuf but at sequence 4 (used independently). -/
def noContentBuf4 : SharedGeometryBuffer :=
  { noContentBuf with header := { noContentBuf.header with sequence := 4 } }

/-- A buffer observed mid-write: odd sequence value. -/
def oddSeqBuf : SharedGeometryBuffer :=
  { noContentBuf with header := { noContentBuf.header with sequence := 3 } }

/-- A geometry that passes all of setMesh's validation checks but whose
vertex payload exceeds the 8 MiB staging ring: stride 8, ring size plus
one stride of zero bytes, no indices. -/
def oversizedMesh : GeometryData :=
  { vertexData := List.replicate (STAGING_RING_SIZE + 8) 0
    bindingDescription := ⟨0, 8, 0⟩
    attributeDescriptions := []
    topology := VK_PRIMITIVE_TOPOLOGY_TRIANGLE_LIST
    indexData := []
    indexType := VK_INDEX_TYPE_UINT16 }

/-! ## Theorems -/

/-- Claim C7: a stagingRingWrite request strictly larger than the 8 MiB
ring capacity is rejected by throwing immediately, with no partial
mutation: the thrown-at state is the pre state (no ring bytes written, the
cursor unchanged, no pending transfer recorded) and no event happened. -/
theorem c7_oversized_write_rejected_without_mutation
    (s : RendererState) (data : List Nat)
    (h : data.length > STAGING_RING_SIZE) :
    stagingRingWrite s data =
      .err s "Transfer size exceeds staging ring buffer capacity!" [] := by
  unfold stagingRingWrite
  rw [if_pos h]

/-- Witness for C7 at a concrete oversized request. -/
theorem c7_oversized_write_rejected_without_mutation_witness :
    (List.replicate (STAGING_RING_SIZE + 1) 0).length > STAGING_RING_SIZE ∧
    stagingRingWrite {} (List.replicate (STAGING_RING_SIZE + 1) 0) =
      .err {} "Transfer size exceeds staging ring buffer capacity!" [] := by
  have h : (List.replicate (STAGING_RING_SIZE + 1) 0).length > STAGING_RING_SIZE := by
    rw [List.length_replicate]
    omega
  exact ⟨h, c7_oversized_write_rejected_without_mutation {} _ h⟩

/-- Claim C8: a tryRead that observes an odd sequence value (write in
progress) returns false and changes nothing: lastSequence keeps its value,
the shared buffer is not written (consumerSequence untouched), and the
caller's update object keeps the state of the prior successful read. -/
theorem c8_odd_sequence_rejected_without_mutation
    (buf : SharedGeometryBuffer) (last : Nat) (u : SharedGeometryUpdate)
    (hodd : buf.header.sequence % 2 = 1) :
    tryRead buf last u = ⟨false, last, u, buf⟩ := by
  unfold tryRead
  rw [if_pos (Or.inr (by omega))]

/-- Witness for C8 at a concrete buffer with sequence 3. -/
theorem c8_odd_sequence_rejected_without_mutation_witness :
    oddSeqBuf.header.sequence % 2 = 1 ∧
    tryRead oddSeqBuf 0 {} = ⟨false, 0, {}, oddSeqBuf⟩ :=
  ⟨rfl, c8_odd_sequence_rejected_without_mutation oddSeqBuf 0 {} rfl⟩

/-- Claim C10: a stable, new, magic/version-valid header with both
hasGeometry and hasTransform zero is rejected: tryRead returns false and
changes nothing, so lastSequence is not advanced, consumerSequence is not
written, and every repeated tryRead on the unchanged buffer rejects the
same sequence again. -/
theorem c10_no_content_not_consumed
    (buf : SharedGeometryBuffer) (last : Nat) (u : SharedGeometryUpdate)
    (heven : buf.header.sequence % 2 = 0)
    (hnew : buf.header.sequence ≠ last)
    (hmagic : buf.header.magic = SharedGeometryMagic)
    (hver : buf.header.version = SharedGeometryVersion)
    (hg : buf.header.hasGeometry = 0)
    (ht : buf.header.hasTransform = 0) :
    tryRead buf last u = ⟨false, last, u, buf⟩ ∧
    ∀ u2 : SharedGeometryUpdate, (tryRead buf last u2).ok = false := by
  have hmain : ∀ u2 : SharedGeometryUpdate, tryRead buf last u2 = ⟨false, last, u2, buf⟩ := by
    intro u2
    unfold tryRead
    rw [if_neg (by omega)]
    rw [if_neg (by omega)]
    rw [if_neg (by simp [hmagic, hver])]
    rw [if_pos (by simp [hg, ht])]
  exact ⟨hmain u, fun u2 => by rw [hmain u2]⟩

/-- Witness for C10 at a concrete no-content buffer with sequence 2. -/
theorem c10_no_content_not_consumed_witness :
    noContentBuf.header.sequence % 2 = 0 ∧
    noContentBuf.header.sequence ≠ 0 ∧
    tryRead noContentBuf 0 {} = ⟨false, 0, {}, noContentBuf⟩ := by
  have h := c10_no_content_not_consumed noContentBuf 0 {} rfl (by decide) rfl rfl rfl rfl
  exact ⟨rfl, by decide, h.1⟩

/-- Counterexample to claim C4 as stated: the header of noContentBuf4 is
observed stably (sequence 4, even, different from lastSequence 0), its
magic and version match the compiled constants and none of the claim's
rejection conditions hold (hasGeometry is not set), yet tryRead rejects it
(returns false).  The claim's "exactly when" therefore fails: the code also
rejects a valid header carrying neither geometry nor transform. -/
theorem c4_counterexample :
    noContentBuf4.header.sequence % 2 = 0 ∧
    noContentBuf4.header.sequence ≠ 0 ∧
    (tryRead noContentBuf4 0 {}).ok = false ∧
    ¬ c4ClaimedRejectCond noContentBuf4.header := by
  refine ⟨rfl, by decide, by decide, ?_⟩
  unfold c4ClaimedRejectCond
  decide

/-- Claim C4 (amended): for a stably observed header (even, changed
sequence), tryRead rejects (returns false, never a fatal error) exactly
when its first failing check per the code's order is one of: magic or
version mismatch; both hasGeometry and hasTransform zero; with hasGeometry
set, attributeCount zero or above 8; vertexCount*vertexStride zero or
above 4 MiB; with indexCount > 0, index bytes above 2 MiB — checks applied
in that order (magic/version, no-content, attribute count, vertex bytes,
index bytes). -/
theorem c4_decode_reject_exactly_and_in_order
    (buf : SharedGeometryBuffer) (last : Nat) (u : SharedGeometryUpdate)
    (heven : buf.header.sequence % 2 = 0)
    (hnew : buf.header.sequence ≠ last) :
    ((tryRead buf last u).ok = false ↔ (tryReadRejectReason buf last).isSome) ∧
    tryReadRejectReason buf last = c4AmendedOrderedReason buf.header := by
  have h1 : ¬(buf.header.sequence = last ∨ buf.header.sequence % 2 ≠ 0) := by omega
  have h2 : ¬(buf.header.sequence ≠ buf.header.sequence ∨
      buf.header.sequence % 2 ≠ 0) := by omega
  have hnc0 : ∀ p : Prop, buf.header.hasGeometry = 0 ∧ buf.header.hasTransform = 0 →
      (¬buf.header.hasGeometry ≠ 0 ∧ ¬buf.header.hasTransform ≠ 0) := by
    intro _ h
    omega
  simp only [tryRead, tryReadRejectReason, c4AmendedOrderedReason]
  simp only [if_neg h1, if_neg h2]
  by_cases hm : buf.header.magic ≠ SharedGeometryMagic ∨
      buf.header.version ≠ SharedGeometryVersion
  · simp only [if_pos hm]
    simp
  · simp only [if_neg hm]
    by_cases hnc : buf.header.hasGeometry = 0 ∧ buf.header.hasTransform = 0
    · simp only [if_pos (hnc0 True hnc), if_pos hnc]
      simp
    · simp only
        [if_neg (by omega : ¬(¬buf.header.hasGeometry ≠ 0 ∧ ¬buf.header.hasTransform ≠ 0)),
         if_neg hnc]
      by_cases hattr : buf.header.hasGeometry ≠ 0 ∧
          (buf.header.attributeCount = 0 ∨
           buf.header.attributeCount > SharedGeometryMaxAttributes)
      · simp only [if_pos hattr]
        simp
      · simp only [if_neg hattr]
        by_cases hvb : buf.header.hasGeometry ≠ 0 ∧
            (buf.header.vertexCount * buf.header.vertexStride = 0 ∨
             buf.header.vertexCount * buf.header.vertexStride > SharedGeometryMaxVertexBytes)
        · simp only [if_pos hvb]
          simp
        · simp only [if_neg hvb]
          by_cases hib : buf.header.hasGeometry ≠ 0 ∧ buf.header.indexCount > 0 ∧
              buf.header.indexCount * indexStrideOf buf.header.indexType >
                SharedGeometryMaxIndexBytes
          · simp only [if_pos hib]
            simp
          · simp only [if_neg hib]
            simp

/-- Witness for the amended claim C4 at a concrete stable buffer. -/
theorem c4_decode_reject_exactly_and_in_order_witness :
    noContentBuf.header.sequence % 2 = 0 ∧ noContentBuf.header.sequence ≠ 0 ∧
    (((tryRead noContentBuf 0 {}).ok = false ↔
        (tryReadRejectReason noContentBuf 0).isSome) ∧
      tryReadRejectReason noContentBuf 0 = c4AmendedOrderedReason noContentBuf.header) :=
  ⟨rfl, by decide,
    c4_decode_reject_exactly_and_in_order noContentBuf 0 {} rfl (by decide)⟩

/-- A pending transfer that survives the reclaim scan of stagingRingWrite
shares no byte with the candidate write range. -/
theorem surviving_transfer_disjoint
    (writeOffset writeEnd : Nat) (wrapped : Bool) (oldOffset : Nat)
    (t : PendingTransfer)
    (h : ringOverlapCond writeOffset writeEnd wrapped oldOffset t = false)
    (b : Nat) (hb1 : writeOffset ≤ b) (hb2 : b < writeEnd) :
    ¬(t.ringOffset ≤ b ∧ b < t.ringOffset + t.ringSize) := by
  intro hc
  simp only [ringOverlapCond] at h
  split at h
  · next hcond =>
      simp only [Bool.and_eq_true, Bool.not_eq_eq_eq_not, Bool.not_true,
        decide_eq_false_iff_not, Bool.and_eq_false_iff, decide_eq_true_eq] at hcond
      rcases hcond with ⟨-, hov⟩
      rcases hov with hov | hov <;> omega
  · simp only [Bool.and_eq_false_iff, decide_eq_false_iff_not] at h
    rcases h with h | h <;> omega

/-- At the memcpy of a successful stagingRingWrite, no still-pending
transfer overlaps the range being written. -/
theorem stagingRingWrite_no_pending_overlap
    (s : RendererState) (data : List Nat) (s' : RendererState) (off : Nat)
    (ev : List REvent) (h : stagingRingWrite s data = .ok s' off ev) :
    ∀ t ∈ s'.pendingTransfers, ∀ b, off ≤ b → b < off + data.length →
      ¬(t.ringOffset ≤ b ∧ b < t.ringOffset + t.ringSize) := by
  unfold stagingRingWrite at h
  by_cases hcap : data.length > STAGING_RING_SIZE
  · rw [if_pos hcap] at h
    cases h
  · rw [if_neg hcap] at h
    simp only [OpResult.ok.injEq] at h
    obtain ⟨hs, hoff, -⟩ := h
    intro t ht b hb1 hb2
    rw [← hs] at ht
    simp only [List.mem_filter, Bool.not_eq_eq_eq_not, Bool.not_true] at ht
    refine surviving_transfer_disjoint _ _ _ _ t ht.2 b ?_ ?_
    · omega
    · omega

/-- Every write record produced by writeRecordOf satisfies the
no-overwrite property. -/
theorem writeRecordOf_disjoint (s : RendererState) (data : List Nat)
    (rec : WriteRecord) (h : writeRecordOf s data = some rec) :
    ∀ t ∈ rec.pendingAtWrite, ∀ b, rec.offset ≤ b → b < rec.offset + rec.size →
      ¬(t.ringOffset ≤ b ∧ b < t.ringOffset + t.ringSize) := by
  unfold writeRecordOf at h
  cases hw : stagingRingWrite s data with
  | ok s' off ev =>
      rw [hw] at h
      simp only [Option.some.injEq] at h
      subst h
      exact stagingRingWrite_no_pending_overlap s data s' off ev hw
  | err s' msg ev =>
      rw [hw] at h
      cases h

/-- Every record of a run of ring operations satisfies the no-overwrite
property. -/
theorem runRingOps_records_disjoint (ops : List RingOp) :
    ∀ s : RendererState, ∀ rec ∈ (runRingOps s ops).2,
      ∀ t ∈ rec.pendingAtWrite, ∀ b, rec.offset ≤ b → b < rec.offset + rec.size →
        ¬(t.ringOffset ≤ b ∧ b < t.ringOffset + t.ringSize) := by
  induction ops with
  | nil =>
      intro s rec hrec
      simp [runRingOps] at hrec
  | cons op ops ih =>
      intro s rec hrec
      unfold runRingOps at hrec
      cases op with
      | write data =>
          cases happ : applyRingOp s (.write data) with
          | ok s' v ev =>
              rw [happ] at hrec
              simp only [List.mem_append] at hrec
              rcases hrec with hrec | hrec
              · rcases Option.mem_toList.mp hrec with hw
                exact writeRecordOf_disjoint s data rec hw
              · exact ih s' rec hrec
          | err s' msg ev =>
              rw [happ] at hrec
              rcases Option.mem_toList.mp hrec with hw
              exact writeRecordOf_disjoint s data rec hw
      | transfer completed dst data =>
          cases happ : applyRingOp s (.transfer completed dst data) with
          | ok s' v ev =>
              rw [happ] at hrec
              simp only [List.mem_append] at hrec
              rcases hrec with hrec | hrec
              · rcases Option.mem_toList.mp hrec with hw
                exact writeRecordOf_disjoint (flushCompletedTransfers s completed) data rec hw
              · exact ih s' rec hrec
          | err s' msg ev =>
              rw [happ] at hrec
              rcases Option.mem_toList.mp hrec with hw
              exact writeRecordOf_disjoint (flushCompletedTransfers s completed) data rec hw

/-- A transfer removed by the reclaim scan has a wait event in the scan's
event list. -/
theorem reclaim_wait_events (pending : List PendingTransfer) (wo we : Nat)
    (wr : Bool) (old : Nat) (t : PendingTransfer) (ht : t ∈ pending)
    (hnot : t ∉ pending.filter fun u => !ringOverlapCond wo we wr old u) :
    REvent.waitTransferFence t.fence ∈
      (pending.filter fun u => ringOverlapCond wo we wr old u).map
        fun u => REvent.waitTransferFence u.fence := by
  have hc : ringOverlapCond wo we wr old t = true := by
    by_contra hf
    refine hnot (List.mem_filter.mpr ⟨ht, ?_⟩)
    simp [Bool.eq_false_iff.mpr hf]
  exact List.mem_map.mpr ⟨t, List.mem_filter.mpr ⟨ht, hc⟩, rfl⟩

/-- Claim C2: over every sequence of stagingRingWrite/transferToDeviceLocal
calls with sizes within the ring capacity, no byte of a still-outstanding
(unreclaimed) pending transfer's recorded region is ever overwritten: at
each memcpy into the ring, every transfer still in pendingTransfers is
byte-disjoint from the written range; and every transfer removed by the
reclaim scan of a successful stagingRingWrite was waited on (its fence wait
event appears) before the memcpy, which is the final event of the call —
the wrap-to-offset-0 case is covered because the scan condition is part of
ringOverlapCond. -/
theorem c2_ring_write_never_overwrites_outstanding
    (s0 : RendererState) (ops : List RingOp)
    (hsz : ∀ op ∈ ops, RingOp.size op ≤ STAGING_RING_SIZE) :
    (∀ rec ∈ (runRingOps s0 ops).2, ∀ t ∈ rec.pendingAtWrite,
      ∀ b, rec.offset ≤ b → b < rec.offset + rec.size →
        ¬(t.ringOffset ≤ b ∧ b < t.ringOffset + t.ringSize)) ∧
    (∀ (s : RendererState) (data : List Nat) (s' : RendererState) (off : Nat)
        (ev : List REvent), stagingRingWrite s data = .ok s' off ev →
      ∀ t ∈ s.pendingTransfers, t ∉ s'.pendingTransfers →
        REvent.waitTransferFence t.fence ∈ ev ∧
        ev.getLast? = some (.memcpyRing off data.length)) := by
  constructor
  · exact runRingOps_records_disjoint ops s0
  · intro s data s' off ev h t ht hnot
    unfold stagingRingWrite at h
    by_cases hcap : data.length > STAGING_RING_SIZE
    · rw [if_pos hcap] at h
      cases h
    · rw [if_neg hcap] at h
      simp only [OpResult.ok.injEq] at h
      obtain ⟨hs, hoff, hev⟩ := h
      subst hoff hev
      constructor
      · apply List.mem_append_left
        refine reclaim_wait_events s.pendingTransfers _ _ _ _ t ht ?_
        intro hmem
        apply hnot
        rw [← hs]
        exact hmem
      · exact List.getLast?_concat _

/-- Witness for C2 at a concrete two-operation run that wraps the ring. -/
theorem c2_ring_write_never_overwrites_outstanding_witness :
    (∀ op ∈ [RingOp.transfer (fun _ => false) 0 (List.replicate 6000000 1),
             RingOp.transfer (fun _ => false) 1 (List.replicate 6000000 2)],
      RingOp.size op ≤ STAGING_RING_SIZE) ∧
    (∀ rec ∈ (runRingOps {} [RingOp.transfer (fun _ => false) 0 (List.replicate 6000000 1),
             RingOp.transfer (fun _ => false) 1 (List.replicate 6000000 2)]).2,
      ∀ t ∈ rec.pendingAtWrite,
      ∀ b, rec.offset ≤ b → b < rec.offset + rec.size →
        ¬(t.ringOffset ≤ b ∧ b < t.ringOffset + t.ringSize)) := by
  have hsz : ∀ op ∈ [RingOp.transfer (fun _ => false) 0 (List.replicate 6000000 1),
      RingOp.transfer (fun _ => false) 1 (List.replicate 6000000 2)],
      RingOp.size op ≤ STAGING_RING_SIZE := by
    intro op hop
    simp only [List.mem_cons, List.not_mem_nil, or_false] at hop
    rcases hop with rfl | rfl <;>
      · simp only [RingOp.size, List.length_replicate, STAGING_RING_SIZE]
        omega
  exact ⟨hsz, (c2_ring_write_never_overwrites_outstanding {} _ hsz).1⟩

/-- The byte image of a vertex vector is 24 bytes per vertex. -/
theorem serializeVertices_length (vs : List Vertex)
    (h : ∀ v ∈ vs, v.bytes.length = 24) :
    (serializeVertices vs).length = 24 * vs.length := by
  induction vs with
  | nil => simp [serializeVertices]
  | cons v vs ih =>
      have hv := h v (List.mem_cons_self v vs)
      have ih' := ih fun u hu => h u (List.mem_cons_of_mem v hu)
      simp only [serializeVertices, List.map_cons, List.flatten_cons,
        List.length_append, List.length_cons] at ih' ⊢
      rw [hv, ih']
      ring

/-- The byte image of a uint16 index vector is 2 bytes per index. -/
theorem serializeIndices_length (idx : List Nat) :
    (serializeIndices idx).length = 2 * idx.length := by
  induction idx with
  | nil => simp [serializeIndices]
  | cons i idx ih =>
      simp only [serializeIndices, List.map_cons, List.flatten_cons,
        List.length_append, List.length_cons, List.length_nil] at ih ⊢
      omega

/-- Reading back exactly the block just memcpy'd into the front of a
region returns the block. -/
theorem overwriteFront_take (block region : List Nat) :
    (overwriteFront block region).take block.length = block := by
  unfold overwriteFront
  rw [List.take_left]

/-- Claim C5: for every geometry within the channel capacity limits (vertex
bytes in (0, 4 MiB], index bytes at most 2 MiB; the writer always uses 2
attributes, within the 8 allowed) and every transform, writeSharedGeometry
with writeGeometry=true followed by an uninterleaved tryRead succeeds and
yields an update whose vertex and index byte sequences are bit-identical to
the encoded ones and whose layout (binding description, attribute
descriptions, topology, index type) and vertex/index counts equal the
encoded ones. -/
theorem c5_encode_decode_roundtrip
    (buf : SharedGeometryBuffer) (vs : List Vertex) (idx : List Nat)
    (t : TransformData) (last : Nat) (u : SharedGeometryUpdate)
    (hv24 : ∀ v ∈ vs, v.bytes.length = 24)
    (hvpos : 0 < vs.length)
    (hvcap : 24 * vs.length ≤ SharedGeometryMaxVertexBytes)
    (hicap : 2 * idx.length ≤ SharedGeometryMaxIndexBytes)
    (heven : buf.header.sequence % 2 = 0)
    (hnew : buf.header.sequence + 2 ≠ last) :
    (tryRead (writeSharedGeometry buf vs idx t true) last u).ok = true ∧
    (tryRead (writeSharedGeometry buf vs idx t true) last u).update.hasGeometry = true ∧
    (tryRead (writeSharedGeometry buf vs idx t true) last u).update.geometry.vertexData =
      serializeVertices vs ∧
    (tryRead (writeSharedGeometry buf vs idx t true) last u).update.geometry.indexData =
      serializeIndices idx ∧
    (tryRead (writeSharedGeometry buf vs idx t true) last u).update.geometry.bindingDescription =
      ⟨0, 24, VK_VERTEX_INPUT_RATE_VERTEX⟩ ∧
    (tryRead (writeSharedGeometry buf vs idx t true) last u).update.geometry.attributeDescriptions =
      [⟨0, 0, VK_FORMAT_R32G32B32_SFLOAT, 0⟩, ⟨1, 0, VK_FORMAT_R32G32B32_SFLOAT, 12⟩] ∧
    (tryRead (writeSharedGeometry buf vs idx t true) last u).update.geometry.topology =
      VK_PRIMITIVE_TOPOLOGY_TRIANGLE_LIST ∧
    (tryRead (writeSharedGeometry buf vs idx t true) last u).update.geometry.indexType =
      VK_INDEX_TYPE_UINT16 ∧
    (tryRead (writeSharedGeometry buf vs idx t true) last u).update.geometry.vertexCount =
      vs.length ∧
    (tryRead (writeSharedGeometry buf vs idx t true) last u).update.geometry.indexCount =
      idx.length := by
  have hvlen : (serializeVertices vs).length = 24 * vs.length :=
    serializeVertices_length vs hv24
  have hilen : (serializeIndices idx).length = 2 * idx.length :=
    serializeIndices_length idx
  simp only [SharedGeometryMaxVertexBytes] at hvcap
  simp only [SharedGeometryMaxIndexBytes] at hicap
  have hW : writeSharedGeometry buf vs idx t true =
      { header :=
          { magic := SharedGeometryMagic
            version := SharedGeometryVersion
            sequence := buf.header.sequence + 2
            hasGeometry := 1
            hasTransform := 1
            vertexStride := sizeofVertex
            vertexCount := vs.length
            indexCount := idx.length
            indexType := VK_INDEX_TYPE_UINT16
            topology := VK_PRIMITIVE_TOPOLOGY_TRIANGLE_LIST
            attributeCount := 2
            bindingDescription := ⟨0, sizeofVertex, VK_VERTEX_INPUT_RATE_VERTEX⟩
            attributes := fun i =>
              if i = 0 then ⟨0, 0, VK_FORMAT_R32G32B32_SFLOAT, 0⟩
              else if i = 1 then ⟨1, 0, VK_FORMAT_R32G32B32_SFLOAT, 12⟩
              else buf.header.attributes i
            model := t.model
            view := t.view
            proj := t.proj
            consumerSequence := buf.header.consumerSequence }
        vertexData := overwriteFront (serializeVertices vs) buf.vertexData
        indexData := overwriteFront (serializeIndices idx) buf.indexData } := rfl
  rw [hW]
  simp only [tryRead]
  rw [if_neg (by omega)]
  rw [if_neg (by omega)]
  rw [if_neg (by simp)]
  rw [if_neg (by decide)]
  rw [if_neg (by decide)]
  rw [if_neg (by
    simp only [sizeofVertex, SharedGeometryMaxVertexBytes]
    omega)]
  rw [if_neg (by
    simp only [indexStrideOf, VK_INDEX_TYPE_UINT16, VK_INDEX_TYPE_UINT32,
      SharedGeometryMaxIndexBytes]
    norm_num
    omega)]
  simp only [if_pos (by decide : (1 : Nat) ≠ 0)]
  have hstride2 : indexStrideOf VK_INDEX_TYPE_UINT16 = 2 := rfl
  refine ⟨trivial, trivial, ?_, ?_, by rfl, ?_, trivial, trivial, trivial, ?_⟩
  · rw [show vs.length * sizeofVertex = (serializeVertices vs).length from by
      rw [hvlen]
      simp only [sizeofVertex]
      ring]
    exact overwriteFront_take _ _
  · by_cases hidx : idx.length > 0
    · rw [if_pos hidx]
      rw [if_pos (show idx.length * indexStrideOf VK_INDEX_TYPE_UINT16 > 0 from by
        rw [hstride2]
        omega)]
      rw [show idx.length * indexStrideOf VK_INDEX_TYPE_UINT16 =
          (serializeIndices idx).length from by
        rw [hstride2, hilen]
        ring]
      exact overwriteFront_take _ _
    · rw [if_neg hidx]
      rw [if_neg (by omega : ¬((0 : Nat) > 0))]
      have hnil : idx = [] := List.length_eq_zero.mp (by omega)
      rw [hnil]
      rfl
  · rfl
  · by_cases hidx : idx.length > 0
    · rw [if_pos hidx]
      rw [if_pos (show idx.length * indexStrideOf VK_INDEX_TYPE_UINT16 > 0 from by
        rw [hstride2]
        omega)]
    · rw [if_neg hidx]
      rw [if_neg (by omega : ¬((0 : Nat) > 0))]
      omega

/-- Appending traces preserves the absence of pipeline events. -/
theorem noPipelineEvents_append {a b : List REvent}
    (ha : noPipelineEvents a) (hb : noPipelineEvents b) :
    noPipelineEvents (a ++ b) := by
  intro q
  constructor <;> intro hmem <;> rcases List.mem_append.mp hmem with hm | hm
  · exact (ha q).1 hm
  · exact (hb q).1 hm
  · exact (ha q).2 hm
  · exact (hb q).2 hm

/-- The empty trace has no pipeline events. -/
theorem noPipelineEvents_nil : noPipelineEvents [] := by
  intro q
  simp [noPipelineEvents]

/-- stagingRingWrite preserves the pipeline and the active mesh and emits
no pipeline events. -/
theorem stagingRingWrite_preserves (s : RendererState) (data : List Nat) :
    (stagingRingWrite s data).state.graphicsPipeline = s.graphicsPipeline ∧
    (stagingRingWrite s data).state.mesh = s.mesh ∧
    noPipelineEvents (stagingRingWrite s data).events := by
  unfold stagingRingWrite
  by_cases h : data.length > STAGING_RING_SIZE
  · simp only [if_pos h, OpResult.state, OpResult.events]
    exact ⟨by trivial, by trivial, noPipelineEvents_nil⟩
  · simp only [if_neg h, OpResult.state, OpResult.events]
    refine ⟨by trivial, by trivial, fun q => ⟨fun hmem => ?_, fun hmem => ?_⟩⟩ <;>
    · rcases List.mem_append.mp hmem with hm | hm
      · rcases List.mem_map.mp hm with ⟨u, -, hu⟩
        cases hu
      · cases List.mem_singleton.mp hm

/-- transferToDeviceLocal preserves the pipeline and the active mesh and
emits no pipeline events. -/
theorem transferToDeviceLocal_preserves (s : RendererState) (completed : Nat → Bool)
    (dst : Nat) (data : List Nat) :
    (transferToDeviceLocal s completed dst data).state.graphicsPipeline =
      s.graphicsPipeline ∧
    (transferToDeviceLocal s completed dst data).state.mesh = s.mesh ∧
    noPipelineEvents (transferToDeviceLocal s completed dst data).events := by
  have hb := stagingRingWrite_preserves (flushCompletedTransfers s completed) data
  cases hw : stagingRingWrite (flushCompletedTransfers s completed) data with
  | err s2 msg ev =>
      rw [hw] at hb
      simp only [OpResult.state, OpResult.events] at hb
      simp only [transferToDeviceLocal, hw, OpResult.state, OpResult.events]
      exact hb
  | ok s2 off ev =>
      rw [hw] at hb
      simp only [OpResult.state, OpResult.events] at hb
      simp only [transferToDeviceLocal, hw, OpResult.state, OpResult.events]
      refine ⟨hb.1, hb.2.1, fun q => ⟨fun hmem => ?_, fun hmem => ?_⟩⟩
      · rcases List.mem_append.mp hmem with hm | hm
        · exact (hb.2.2 q).1 hm
        · cases List.mem_singleton.mp hm
      · rcases List.mem_append.mp hmem with hm | hm
        · exact (hb.2.2 q).2 hm
        · cases List.mem_singleton.mp hm

/-- createVertexBuffer preserves the pipeline and the active mesh and
emits no pipeline events. -/
theorem createVertexBuffer_preserves (s : RendererState) (completed : Nat → Bool) :
    (createVertexBuffer s completed).state.graphicsPipeline = s.graphicsPipeline ∧
    (createVertexBuffer s completed).state.mesh = s.mesh ∧
    noPipelineEvents (createVertexBuffer s completed).events := by
  by_cases h0 : s.mesh.vertexData.length = 0
  · simp only [createVertexBuffer, if_pos h0, OpResult.state, OpResult.events]
    exact ⟨by trivial, by trivial, noPipelineEvents_nil⟩
  · have hb := transferToDeviceLocal_preserves
      { s with nextHandle := s.nextHandle + 1, vertexBuffer := some s.nextHandle }
      completed s.nextHandle s.mesh.vertexData
    cases hw : transferToDeviceLocal
        { s with nextHandle := s.nextHandle + 1, vertexBuffer := some s.nextHandle }
        completed s.nextHandle s.mesh.vertexData with
    | err s2 msg ev =>
        rw [hw] at hb
        simp only [OpResult.state, OpResult.events] at hb
        simp only [createVertexBuffer, if_neg h0, hw, OpResult.state, OpResult.events]
        refine ⟨hb.1, hb.2.1, fun q => ⟨fun hmem => ?_, fun hmem => ?_⟩⟩
        · rcases List.mem_cons.mp hmem with hm | hm
          · cases hm
          · exact (hb.2.2 q).1 hm
        · rcases List.mem_cons.mp hmem with hm | hm
          · cases hm
          · exact (hb.2.2 q).2 hm
    | ok s2 v ev =>
        rw [hw] at hb
        simp only [OpResult.state, OpResult.events] at hb
        simp only [createVertexBuffer, if_neg h0, hw, OpResult.state, OpResult.events]
        refine ⟨hb.1, hb.2.1, fun q => ⟨fun hmem => ?_, fun hmem => ?_⟩⟩
        · rcases List.mem_cons.mp hmem with hm | hm
          · cases hm
          · exact (hb.2.2 q).1 hm
        · rcases List.mem_cons.mp hmem with hm | hm
          · cases hm
          · exact (hb.2.2 q).2 hm

/-- createIndexBuffer preserves the pipeline and the active mesh and emits
no pipeline events. -/
theorem createIndexBuffer_preserves (s : RendererState) (completed : Nat → Bool) :
    (createIndexBuffer s completed).state.graphicsPipeline = s.graphicsPipeline ∧
    (createIndexBuffer s completed).state.mesh = s.mesh ∧
    noPipelineEvents (createIndexBuffer s completed).events := by
  by_cases hc : s.mesh.indexCount = 0
  · simp only [createIndexBuffer, if_pos hc, OpResult.state, OpResult.events]
    exact ⟨by trivial, by trivial, noPipelineEvents_nil⟩
  · by_cases h0 : s.mesh.indexData.length = 0
    · simp only [createIndexBuffer, if_neg hc, if_pos h0, OpResult.state, OpResult.events]
      exact ⟨by trivial, by trivial, noPipelineEvents_nil⟩
    · have hb := transferToDeviceLocal_preserves
        { s with nextHandle := s.nextHandle + 1, indexBuffer := some s.nextHandle }
        completed s.nextHandle s.mesh.indexData
      cases hw : transferToDeviceLocal
          { s with nextHandle := s.nextHandle + 1, indexBuffer := some s.nextHandle }
          completed s.nextHandle s.mesh.indexData with
      | err s2 msg ev =>
          rw [hw] at hb
          simp only [OpResult.state, OpResult.events] at hb
          simp only [createIndexBuffer, if_neg hc, if_neg h0, hw,
            OpResult.state, OpResult.events]
          refine ⟨hb.1, hb.2.1, fun q => ⟨fun hmem => ?_, fun hmem => ?_⟩⟩
          · rcases List.mem_cons.mp hmem with hm | hm
            · cases hm
            · exact (hb.2.2 q).1 hm
          · rcases List.mem_cons.mp hmem with hm | hm
            · cases hm
            · exact (hb.2.2 q).2 hm
      | ok s2 v ev =>
          rw [hw] at hb
          simp only [OpResult.state, OpResult.events] at hb
          simp only [createIndexBuffer, if_neg hc, if_neg h0, hw,
            OpResult.state, OpResult.events]
          refine ⟨hb.1, hb.2.1, fun q => ⟨fun hmem => ?_, fun hmem => ?_⟩⟩
          · rcases List.mem_cons.mp hmem with hm | hm
            · cases hm
            · exact (hb.2.2 q).1 hm
          · rcases List.mem_cons.mp hmem with hm | hm
            · cases hm
            · exact (hb.2.2 q).2 hm

/-- uploadMeshBuffers preserves the pipeline object. -/
theorem uploadMeshBuffers_state_pipeline (s4 : RendererState) (completed : Nat → Bool) :
    (uploadMeshBuffers s4 completed).state.graphicsPipeline = s4.graphicsPipeline := by
  have hv := createVertexBuffer_preserves s4 completed
  cases hw : createVertexBuffer s4 completed with
  | err s5 msg ev =>
      rw [hw] at hv
      simp only [OpResult.state] at hv
      simp only [uploadMeshBuffers, hw, OpResult.state]
      exact hv.1
  | ok s5 v evVB =>
      rw [hw] at hv
      simp only [OpResult.state] at hv
      by_cases hic : s5.mesh.indexCount > 0
      · have hi := createIndexBuffer_preserves s5 completed
        cases hw2 : createIndexBuffer s5 completed with
        | err s6 msg ev =>
            rw [hw2] at hi
            simp only [OpResult.state] at hi
            simp only [uploadMeshBuffers, hw, if_pos hic, hw2, OpResult.state]
            exact hi.1.trans hv.1
        | ok s6 v2 evIB =>
            rw [hw2] at hi
            simp only [OpResult.state] at hi
            simp only [uploadMeshBuffers, hw, if_pos hic, hw2, OpResult.state]
            exact hi.1.trans hv.1
      · simp only [uploadMeshBuffers, hw, if_neg hic, OpResult.state]
        exact hv.1

/-- uploadMeshBuffers emits no pipeline events. -/
theorem uploadMeshBuffers_noPipelineEvents (s4 : RendererState) (completed : Nat → Bool) :
    noPipelineEvents (uploadMeshBuffers s4 completed).events := by
  have hv := createVertexBuffer_preserves s4 completed
  cases hw : createVertexBuffer s4 completed with
  | err s5 msg ev =>
      rw [hw] at hv
      simp only [OpResult.events] at hv
      simp only [uploadMeshBuffers, hw, OpResult.events]
      exact hv.2.2
  | ok s5 v evVB =>
      rw [hw] at hv
      simp only [OpResult.events] at hv
      by_cases hic : s5.mesh.indexCount > 0
      · have hi := createIndexBuffer_preserves s5 completed
        cases hw2 : createIndexBuffer s5 completed with
        | err s6 msg ev =>
            rw [hw2] at hi
            simp only [OpResult.events] at hi
            simp only [uploadMeshBuffers, hw, if_pos hic, hw2, OpResult.events]
            exact noPipelineEvents_append hv.2.2 hi.2.2
        | ok s6 v2 evIB =>
            rw [hw2] at hi
            simp only [OpResult.events] at hi
            simp only [uploadMeshBuffers, hw, if_pos hic, hw2, OpResult.events]
            exact noPipelineEvents_append hv.2.2 hi.2.2
      · simp only [uploadMeshBuffers, hw, if_neg hic, OpResult.events]
        exact hv.2.2

/-- prependEvents leaves the state unchanged. -/
theorem prependEvents_state (ev : List REvent) (r : OpResult Unit) :
    (prependEvents ev r).state = r.state := by
  cases r <;> rfl

/-- prependEvents prefixes the events. -/
theorem prependEvents_events (ev : List REvent) (r : OpResult Unit) :
    (prependEvents ev r).events = ev ++ r.events := by
  cases r <;> rfl

/-- Fence waits are not pipeline events. -/
theorem noPipelineEvents_map_waitFence (l : List Nat) :
    noPipelineEvents (l.map REvent.waitFence) := by
  intro q
  constructor <;> intro hmem <;> rcases List.mem_map.mp hmem with ⟨i, -, hi⟩ <;> cases hi

/-- Transfer-fence waits are not pipeline events. -/
theorem noPipelineEvents_map_waitTransfer (pt : List PendingTransfer) :
    noPipelineEvents (pt.map fun t => REvent.waitTransferFence t.fence) := by
  intro q
  constructor <;> intro hmem <;> rcases List.mem_map.mp hmem with ⟨t, -, ht⟩ <;> cases ht

/-- Buffer-destroy events are not pipeline events. -/
theorem noPipelineEvents_destroyEvents (ds : List REvent)
    (h : ∀ e ∈ ds, ∃ b, e = REvent.destroyBuffer b) :
    noPipelineEvents ds := by
  intro q
  constructor <;> intro hmem <;> rcases h _ hmem with ⟨b, hb⟩ <;> cases hb

/-- The events before the pipeline phase of setMesh are neither transfer
submissions nor ring writes. -/
theorem preEvents_not_upload (k : Nat) (pt : List PendingTransfer) (ds : List REvent)
    (hds : ∀ e ∈ ds, ∃ b, e = REvent.destroyBuffer b) :
    ∀ e ∈ (List.range k).map REvent.waitFence ++
        pt.map (fun t => REvent.waitTransferFence t.fence) ++ ds,
      (∀ f o z d, e ≠ REvent.submitTransfer f o z d) ∧
      ∀ o z, e ≠ REvent.memcpyRing o z := by
  intro e he
  rcases List.mem_append.mp he with he | he
  · rcases List.mem_append.mp he with he | he
    · rcases List.mem_map.mp he with ⟨i, -, hi⟩
      subst hi
      exact ⟨(fun _ _ _ _ h => nomatch h), (fun _ _ h => nomatch h)⟩
    · rcases List.mem_map.mp he with ⟨t, -, ht⟩
      subst ht
      exact ⟨(fun _ _ _ _ h => nomatch h), (fun _ _ h => nomatch h)⟩
  · rcases hds _ he with ⟨b, hb⟩
    subst hb
    exact ⟨(fun _ _ _ _ h => nomatch h), (fun _ _ h => nomatch h)⟩

/-- The state after destroyMeshBuffers, and the shape of its events. -/
theorem destroyMeshBuffers_spec (s : RendererState) :
    (destroyMeshBuffers s).1 = { s with vertexBuffer := none, indexBuffer := none } ∧
    ∀ e ∈ (destroyMeshBuffers s).2, ∃ b, e = REvent.destroyBuffer b := by
  rcases s with ⟨m, vb, ib, gp, nh, pt, ring, off, fen, cf, fr⟩
  cases vb <;> cases ib <;> simp [destroyMeshBuffers]

/-- End-game for the changed-layout case of the setMesh body. -/
theorem partB_endgame (s4 : RendererState) (c : Nat → Bool) (k : Nat)
    (pt : List PendingTransfer) (DS : List REvent) (dp cn : Nat) (q : Option Nat)
    (hq : s4.graphicsPipeline = q)
    (hds : ∀ e ∈ DS, ∃ b, e = REvent.destroyBuffer b) :
    (prependEvents ((List.range k).map REvent.waitFence ++
        pt.map (fun t => REvent.waitTransferFence t.fence) ++ DS ++
        ([REvent.destroyPipeline dp] ++ [REvent.createPipeline cn]))
      (uploadMeshBuffers s4 c)).state.graphicsPipeline = q ∧
    ∃ pre post,
      (prependEvents ((List.range k).map REvent.waitFence ++
          pt.map (fun t => REvent.waitTransferFence t.fence) ++ DS ++
          ([REvent.destroyPipeline dp] ++ [REvent.createPipeline cn]))
        (uploadMeshBuffers s4 c)).events =
        pre ++ ([REvent.destroyPipeline dp, REvent.createPipeline cn] ++ post) ∧
      ∀ e ∈ pre, (∀ f o z d, e ≠ REvent.submitTransfer f o z d) ∧
        ∀ o z, e ≠ REvent.memcpyRing o z := by
  constructor
  · rw [prependEvents_state, uploadMeshBuffers_state_pipeline]
    exact hq
  · rw [prependEvents_events]
    refine ⟨(List.range k).map REvent.waitFence ++
      pt.map (fun t => REvent.waitTransferFence t.fence) ++ DS,
      (uploadMeshBuffers s4 c).events, ?_, preEvents_not_upload k pt DS hds⟩
    simp [List.append_assoc]

/-- End-game for the no-pipeline-yet case of the setMesh body. -/
theorem partC_endgame (s4 : RendererState) (c : Nat → Bool) (k : Nat)
    (pt : List PendingTransfer) (DS : List REvent) (n : Nat) (q : Option Nat)
    (hq : s4.graphicsPipeline = q)
    (hds : ∀ e ∈ DS, ∃ b, e = REvent.destroyBuffer b) :
    (prependEvents ((List.range k).map REvent.waitFence ++
        pt.map (fun t => REvent.waitTransferFence t.fence) ++ DS ++
        [REvent.createPipeline n])
      (uploadMeshBuffers s4 c)).state.graphicsPipeline = q ∧
    REvent.createPipeline n ∈ (prependEvents ((List.range k).map REvent.waitFence ++
        pt.map (fun t => REvent.waitTransferFence t.fence) ++ DS ++
        [REvent.createPipeline n])
      (uploadMeshBuffers s4 c)).events ∧
    ∀ p2, REvent.destroyPipeline p2 ∉ (prependEvents ((List.range k).map REvent.waitFence ++
        pt.map (fun t => REvent.waitTransferFence t.fence) ++ DS ++
        [REvent.createPipeline n])
      (uploadMeshBuffers s4 c)).events := by
  refine ⟨?_, ?_, ?_⟩
  · rw [prependEvents_state, uploadMeshBuffers_state_pipeline]
    exact hq
  · rw [prependEvents_events]
    apply List.mem_append_left
    apply List.mem_append_right
    simp
  · intro p2
    rw [prependEvents_events]
    intro hmem
    rcases List.mem_append.mp hmem with hm | hm
    · rcases List.mem_append.mp hm with hm | hm
      · rcases List.mem_append.mp hm with hm | hm
        · rcases List.mem_append.mp hm with hm | hm
          · rcases List.mem_map.mp hm with ⟨i, -, hi⟩
            cases hi
          · rcases List.mem_map.mp hm with ⟨t, -, ht⟩
            cases ht
        · rcases hds _ hm with ⟨b, hb⟩
          cases hb
      · rcases List.mem_singleton.mp hm
    · exact (uploadMeshBuffers_noPipelineEvents s4 c p2).1 hm


/-- The layout comparison is false exactly when binding and attributes
compare equal. -/
theorem isVertexLayoutDifferent_eq_false_iff (s : RendererState) (g : GeometryData) :
    isVertexLayoutDifferent s g = false ↔
      (areBindingsEqual s.mesh.bindingDescription g.bindingDescription = true ∧
       areAttributesEqual s.mesh.attributeDescriptions g.attributeDescriptions = true) := by
  cases hA : areBindingsEqual s.mesh.bindingDescription g.bindingDescription <;>
    cases hB : areAttributesEqual s.mesh.attributeDescriptions g.attributeDescriptions <;>
      simp [isVertexLayoutDifferent, hA, hB]

/-- setMesh on a validation-passing snapshot reduces to the body applied to
the count-completed snapshot, whose layout fields are the incoming ones. -/
theorem setMesh_eq_apply (s : RendererState) (completed : Nat → Bool)
    (new : GeometryData)
    (hstride : new.bindingDescription.stride ≠ 0)
    (hvd : new.vertexData ≠ [])
    (hdiv : new.vertexData.length % new.bindingDescription.stride = 0)
    (hidxv : new.indexData = [] ∨
      new.indexData.length % indexStrideOf new.indexType = 0) :
    ∃ Vr : GeometryData,
      setMesh s completed new = setMeshApply s completed Vr ∧
      Vr.bindingDescription = new.bindingDescription ∧
      Vr.attributeDescriptions = new.attributeDescriptions ∧
      Vr.topology = new.topology ∧
      Vr.vertexData = new.vertexData ∧
      Vr.indexData = new.indexData := by
  by_cases hni : new.indexData = []
  · refine ⟨{ new with
      vertexCount := new.vertexData.length / new.bindingDescription.stride,
      indexCount := 0 }, ?_, rfl, rfl, rfl, rfl, rfl⟩
    simp only [setMesh]
    rw [if_neg hstride, if_neg hvd, if_neg (by simp [hdiv])]
    rw [if_neg (by simp [hni])]
    rw [if_neg (by simp [hni])]
  · refine ⟨{ new with
      vertexCount := new.vertexData.length / new.bindingDescription.stride,
      indexCount := new.indexData.length / indexStrideOf new.indexType }, ?_, rfl, rfl,
      rfl, rfl, rfl⟩
    rcases hidxv with h | h
    · exact absurd h hni
    · simp only [setMesh]
      rw [if_neg hstride, if_neg hvd, if_neg (by simp [hdiv])]
      rw [if_neg (by simp [h])]
      rw [if_pos hni]

/-- The pipeline decision of the setMesh body: with an equal layout the
pipeline object is kept; with a changed layout it is destroyed then
recreated before any upload; with no pipeline yet one is created. -/
theorem setMeshApply_pipeline_decision (s : RendererState) (completed : Nat → Bool)
    (g : GeometryData) :
    (∀ p, s.graphicsPipeline = some p →
      ((isVertexLayoutDifferent s g = false ∧ s.mesh.topology = g.topology) →
        (setMeshApply s completed g).state.graphicsPipeline = some p ∧
        noPipelineEvents (setMeshApply s completed g).events) ∧
      ((isVertexLayoutDifferent s g = true ∨ s.mesh.topology ≠ g.topology) →
        (setMeshApply s completed g).state.graphicsPipeline = some s.nextHandle ∧
        ∃ pre post,
          (setMeshApply s completed g).events =
            pre ++ ([REvent.destroyPipeline p, REvent.createPipeline s.nextHandle] ++ post) ∧
          ∀ e ∈ pre, (∀ f o z d, e ≠ REvent.submitTransfer f o z d) ∧
            ∀ o z, e ≠ REvent.memcpyRing o z)) ∧
    (s.graphicsPipeline = none →
      (setMeshApply s completed g).state.graphicsPipeline = some s.nextHandle ∧
      REvent.createPipeline s.nextHandle ∈ (setMeshApply s completed g).events ∧
      ∀ p2, REvent.destroyPipeline p2 ∉ (setMeshApply s completed g).events) := by
  obtain ⟨hd1, hd2⟩ := destroyMeshBuffers_spec { s with pendingTransfers := [] }
  constructor
  · intro p hp
    constructor
    · rintro ⟨hlay, htop⟩
      have hrec : (isVertexLayoutDifferent s g || s.mesh.topology != g.topology) = false := by
        simp [hlay, htop]
      rw [hp] at hd2
      simp only [setMeshApply, waitAllTransfers, hrec, Bool.false_eq_true, reduceIte]
      rw [hd1]
      dsimp only
      rw [hp]
      rw [if_neg (by simp : ¬(some p = none : Prop))]
      rw [if_neg (by simp : ¬(some p = none : Prop))]
      constructor
      · rw [prependEvents_state, uploadMeshBuffers_state_pipeline]
      · rw [prependEvents_events]
        refine noPipelineEvents_append ?_ (uploadMeshBuffers_noPipelineEvents _ _)
        refine noPipelineEvents_append ?_ noPipelineEvents_nil
        refine noPipelineEvents_append (noPipelineEvents_append
          (noPipelineEvents_map_waitFence _) (noPipelineEvents_map_waitTransfer _)) ?_
        exact noPipelineEvents_destroyEvents _ hd2
    · intro hdiff
      have hrecT : (isVertexLayoutDifferent s g || s.mesh.topology != g.topology) = true := by
        rcases hdiff with h | h
        · simp [h]
        · simp [h]
      rw [hp] at hd2
      simp only [setMeshApply, waitAllTransfers, hrecT, reduceIte]
      rw [hd1]
      dsimp only
      rw [hp]
      rw [if_neg (by simp : ¬(some p = none : Prop))]
      rw [if_neg (by simp : ¬(some p = none : Prop))]
      simp only [recreateGraphicsPipeline, createGraphicsPipeline]
      exact partB_endgame _ completed _ _ _ _ _ _ rfl hd2
  · intro hp
    rw [hp] at hd2
    simp only [setMeshApply, waitAllTransfers]
    rw [hd1]
    dsimp only
    rw [hp]
    rw [if_pos (rfl : (none : Option Nat) = none)]
    rw [if_pos (rfl : (none : Option Nat) = none)]
    simp only [createGraphicsPipeline]
    exact partC_endgame _ completed _ _ _ _ _ rfl hd2

/-- Claim C6: with the graphics pipeline already existing, setMesh with a
snapshot whose binding description, attribute descriptions and topology all
equal the active mesh's does not destroy or recreate the pipeline,
regardless of vertex/index content; any difference in those causes a
destroy-then-recreate of the pipeline before the new buffers are uploaded
(no transfer submission or ring write precedes the pipeline events); and
when no pipeline exists yet one is created (and none is destroyed). -/
theorem c6_layout_change_drives_pipeline_rebuild
    (s : RendererState) (completed : Nat → Bool) (new : GeometryData)
    (hstride : new.bindingDescription.stride ≠ 0)
    (hvd : new.vertexData ≠ [])
    (hdiv : new.vertexData.length % new.bindingDescription.stride = 0)
    (hidxv : new.indexData = [] ∨
      new.indexData.length % indexStrideOf new.indexType = 0) :
    (∀ p, s.graphicsPipeline = some p →
      ((areBindingsEqual s.mesh.bindingDescription new.bindingDescription = true ∧
        areAttributesEqual s.mesh.attributeDescriptions new.attributeDescriptions = true ∧
        s.mesh.topology = new.topology) →
        (setMesh s completed new).state.graphicsPipeline = some p ∧
        noPipelineEvents (setMesh s completed new).events) ∧
      ((areBindingsEqual s.mesh.bindingDescription new.bindingDescription = false ∨
        areAttributesEqual s.mesh.attributeDescriptions new.attributeDescriptions = false ∨
        s.mesh.topology ≠ new.topology) →
        (setMesh s completed new).state.graphicsPipeline = some s.nextHandle ∧
        ∃ pre post,
          (setMesh s completed new).events =
            pre ++ ([REvent.destroyPipeline p, REvent.createPipeline s.nextHandle] ++ post) ∧
          ∀ e ∈ pre, (∀ f o z d, e ≠ REvent.submitTransfer f o z d) ∧
            ∀ o z, e ≠ REvent.memcpyRing o z)) ∧
    (s.graphicsPipeline = none →
      (setMesh s completed new).state.graphicsPipeline = some s.nextHandle ∧
      REvent.createPipeline s.nextHandle ∈ (setMesh s completed new).events ∧
      ∀ p2, REvent.destroyPipeline p2 ∉ (setMesh s completed new).events) := by
  obtain ⟨Vr, hEq, hB, hA, hT, -, -⟩ :=
    setMesh_eq_apply s completed new hstride hvd hdiv hidxv
  rw [hEq]
  obtain ⟨hsome, hnone⟩ := setMeshApply_pipeline_decision s completed Vr
  constructor
  · intro p hp
    obtain ⟨heq, hdiff⟩ := hsome p hp
    constructor
    · rintro ⟨h1, h2, h3⟩
      apply heq
      refine ⟨(isVertexLayoutDifferent_eq_false_iff s Vr).mpr ⟨?_, ?_⟩, ?_⟩
      · rw [hB]
        exact h1
      · rw [hA]
        exact h2
      · rw [hT]
        exact h3
    · intro hd
      apply hdiff
      rcases hd with h | h | h
      · left
        cases hcase : isVertexLayoutDifferent s Vr
        · exfalso
          have := ((isVertexLayoutDifferent_eq_false_iff s Vr).mp hcase).1
          rw [hB, h] at this
          cases this
        · rfl
      · left
        cases hcase : isVertexLayoutDifferent s Vr
        · exfalso
          have := ((isVertexLayoutDifferent_eq_false_iff s Vr).mp hcase).2
          rw [hA, h] at this
          cases this
        · rfl
      · right
        rw [hT]
        exact h
  · exact hnone

/-- Witness for C6 at a concrete renderer with no pipeline yet. -/
theorem c6_layout_change_drives_pipeline_rebuild_witness :
    (({ vertexData := [0, 0, 0, 0], bindingDescription := ⟨0, 4, 0⟩ } :
        GeometryData).bindingDescription.stride ≠ 0) ∧
    (({ vertexData := [0, 0, 0, 0], bindingDescription := ⟨0, 4, 0⟩ } :
        GeometryData).vertexData ≠ []) ∧
    (({} : RendererState).graphicsPipeline = none →
      (setMesh {} (fun _ => false)
          { vertexData := [0, 0, 0, 0],
            bindingDescription := ⟨0, 4, 0⟩ }).state.graphicsPipeline =
        some ({} : RendererState).nextHandle ∧
      REvent.createPipeline ({} : RendererState).nextHandle ∈
        (setMesh {} (fun _ => false)
          { vertexData := [0, 0, 0, 0], bindingDescription := ⟨0, 4, 0⟩ }).events ∧
      ∀ p2, REvent.destroyPipeline p2 ∉
        (setMesh {} (fun _ => false)
          { vertexData := [0, 0, 0, 0], bindingDescription := ⟨0, 4, 0⟩ }).events) :=
  ⟨by decide, by decide,
    (c6_layout_change_drives_pipeline_rebuild {} (fun _ => false)
      { vertexData := [0, 0, 0, 0], bindingDescription := ⟨0, 4, 0⟩ }
      (by decide) (by decide) (by decide) (Or.inl rfl)).2⟩

/-- The only message stagingRingWrite can throw. -/
theorem stagingRingWrite_err_msg (s : RendererState) (data : List Nat)
    (s2 : RendererState) (msg : String) (ev : List REvent)
    (h : stagingRingWrite s data = .err s2 msg ev) :
    msg = "Transfer size exceeds staging ring buffer capacity!" := by
  unfold stagingRingWrite at h
  by_cases hcap : data.length > STAGING_RING_SIZE
  · rw [if_pos hcap] at h
    cases h
    rfl
  · rw [if_neg hcap] at h
    cases h

/-- The only message transferToDeviceLocal can throw. -/
theorem transferToDeviceLocal_err_msg (s : RendererState) (c : Nat → Bool)
    (d : Nat) (data : List Nat) (s2 : RendererState) (msg : String) (ev : List REvent)
    (h : transferToDeviceLocal s c d data = .err s2 msg ev) :
    msg = "Transfer size exceeds staging ring buffer capacity!" := by
  cases hw : stagingRingWrite (flushCompletedTransfers s c) data with
  | err s3 m3 e3 =>
      simp only [transferToDeviceLocal, hw] at h
      cases h
      exact stagingRingWrite_err_msg _ _ _ _ _ hw
  | ok s3 off e3 =>
      simp only [transferToDeviceLocal, hw] at h
      cases h

/-- The only message createVertexBuffer can throw. -/
theorem createVertexBuffer_err_msg (s : RendererState) (c : Nat → Bool)
    (s2 : RendererState) (msg : String) (ev : List REvent)
    (h : createVertexBuffer s c = .err s2 msg ev) :
    msg = "Transfer size exceeds staging ring buffer capacity!" := by
  by_cases h0 : s.mesh.vertexData.length = 0
  · simp only [createVertexBuffer, if_pos h0] at h
    cases h
  · cases hw : transferToDeviceLocal
        { s with nextHandle := s.nextHandle + 1, vertexBuffer := some s.nextHandle }
        c s.nextHandle s.mesh.vertexData with
    | err s3 m3 e3 =>
        simp only [createVertexBuffer, if_neg h0, hw] at h
        cases h
        exact transferToDeviceLocal_err_msg _ _ _ _ _ _ _ hw
    | ok s3 v e3 =>
        simp only [createVertexBuffer, if_neg h0, hw] at h
        cases h

/-- The only message createIndexBuffer can throw. -/
theorem createIndexBuffer_err_msg (s : RendererState) (c : Nat → Bool)
    (s2 : RendererState) (msg : String) (ev : List REvent)
    (h : createIndexBuffer s c = .err s2 msg ev) :
    msg = "Transfer size exceeds staging ring buffer capacity!" := by
  by_cases hc0 : s.mesh.indexCount = 0
  · simp only [createIndexBuffer, if_pos hc0] at h
    cases h
  · by_cases h0 : s.mesh.indexData.length = 0
    · simp only [createIndexBuffer, if_neg hc0, if_pos h0] at h
      cases h
    · cases hw : transferToDeviceLocal
          { s with nextHandle := s.nextHandle + 1, indexBuffer := some s.nextHandle }
          c s.nextHandle s.mesh.indexData with
      | err s3 m3 e3 =>
          simp only [createIndexBuffer, if_neg hc0, if_neg h0, hw] at h
          cases h
          exact transferToDeviceLocal_err_msg _ _ _ _ _ _ _ hw
      | ok s3 v e3 =>
          simp only [createIndexBuffer, if_neg hc0, if_neg h0, hw] at h
          cases h

/-- The only message uploadMeshBuffers can throw. -/
theorem uploadMeshBuffers_err_msg (s4 : RendererState) (c : Nat → Bool)
    (s2 : RendererState) (msg : String) (ev : List REvent)
    (h : uploadMeshBuffers s4 c = .err s2 msg ev) :
    msg = "Transfer size exceeds staging ring buffer capacity!" := by
  cases hw : createVertexBuffer s4 c with
  | err s5 m5 e5 =>
      simp only [uploadMeshBuffers, hw] at h
      cases h
      exact createVertexBuffer_err_msg _ _ _ _ _ hw
  | ok s5 v e5 =>
      by_cases hic : s5.mesh.indexCount > 0
      · cases hw2 : createIndexBuffer s5 c with
        | err s6 m6 e6 =>
            simp only [uploadMeshBuffers, hw, if_pos hic, hw2] at h
            cases h
            exact createIndexBuffer_err_msg _ _ _ _ _ hw2
        | ok s6 v2 e6 =>
            simp only [uploadMeshBuffers, hw, if_pos hic, hw2] at h
            cases h
      · simp only [uploadMeshBuffers, hw, if_neg hic] at h
        cases h

/-- An error out of prependEvents comes from the wrapped result. -/
theorem prependEvents_err (EV : List REvent) (r : OpResult Unit)
    (s2 : RendererState) (msg : String) (ev : List REvent)
    (h : prependEvents EV r = .err s2 msg ev) :
    ∃ tail, r = .err s2 msg tail := by
  cases r with
  | ok s v t =>
      cases h
  | err s m t =>
      cases h
      exact ⟨t, rfl⟩

/-- The only message the setMesh body can throw. -/
theorem setMeshApply_err_msg (s : RendererState) (c : Nat → Bool) (g : GeometryData)
    (s2 : RendererState) (msg : String) (ev : List REvent)
    (h : setMeshApply s c g = .err s2 msg ev) :
    msg = "Transfer size exceeds staging ring buffer capacity!" := by
  simp only [setMeshApply] at h
  obtain ⟨tail, htail⟩ := prependEvents_err _ _ _ _ _ h
  exact uploadMeshBuffers_err_msg _ _ _ _ _ htail

/-- stagingRingWrite succeeds within capacity. -/
theorem stagingRingWrite_ok (s : RendererState) (data : List Nat)
    (h : ¬ data.length > STAGING_RING_SIZE) :
    ∃ s2 off ev, stagingRingWrite s data = .ok s2 off ev :=
  ⟨_, _, _, by unfold stagingRingWrite; rw [if_neg h]⟩

/-- transferToDeviceLocal succeeds within capacity. -/
theorem transferToDeviceLocal_ok (s : RendererState) (c : Nat → Bool)
    (d : Nat) (data : List Nat) (h : data.length ≤ STAGING_RING_SIZE) :
    ∃ s2 ev, transferToDeviceLocal s c d data = .ok s2 () ev := by
  obtain ⟨s2, off, ev, hw⟩ := stagingRingWrite_ok (flushCompletedTransfers s c) data (by omega)
  simp only [transferToDeviceLocal, hw]
  exact ⟨_, _, rfl⟩

/-- createVertexBuffer succeeds when the payload fits the ring. -/
theorem createVertexBuffer_ok (s : RendererState) (c : Nat → Bool)
    (h : s.mesh.vertexData.length ≤ STAGING_RING_SIZE) :
    ∃ s2 ev, createVertexBuffer s c = .ok s2 () ev := by
  by_cases h0 : s.mesh.vertexData.length = 0
  · exact ⟨s, [], by simp [createVertexBuffer, h0]⟩
  · obtain ⟨s2, ev, hw⟩ := transferToDeviceLocal_ok
      { s with nextHandle := s.nextHandle + 1, vertexBuffer := some s.nextHandle }
      c s.nextHandle s.mesh.vertexData h
    simp only [createVertexBuffer, if_neg h0, hw]
    exact ⟨_, _, rfl⟩

/-- createIndexBuffer succeeds when the payload fits the ring. -/
theorem createIndexBuffer_ok (s : RendererState) (c : Nat → Bool)
    (h : s.mesh.indexData.length ≤ STAGING_RING_SIZE) :
    ∃ s2 ev, createIndexBuffer s c = .ok s2 () ev := by
  by_cases hc0 : s.mesh.indexCount = 0
  · exact ⟨s, [], by simp [createIndexBuffer, hc0]⟩
  · by_cases h0 : s.mesh.indexData.length = 0
    · exact ⟨s, [], by simp [createIndexBuffer, hc0, h0]⟩
    · obtain ⟨s2, ev, hw⟩ := transferToDeviceLocal_ok
        { s with nextHandle := s.nextHandle + 1, indexBuffer := some s.nextHandle }
        c s.nextHandle s.mesh.indexData h
      simp only [createIndexBuffer, if_neg hc0, if_neg h0, hw]
      exact ⟨_, _, rfl⟩

/-- uploadMeshBuffers succeeds when both payloads fit the ring. -/
theorem uploadMeshBuffers_ok (s4 : RendererState) (c : Nat → Bool)
    (hv : s4.mesh.vertexData.length ≤ STAGING_RING_SIZE)
    (hi : s4.mesh.indexData.length ≤ STAGING_RING_SIZE) :
    ∃ s5 ev, uploadMeshBuffers s4 c = .ok s5 () ev := by
  obtain ⟨s5, ev, hw⟩ := createVertexBuffer_ok s4 c hv
  have hm : s5.mesh = s4.mesh := by
    have := (createVertexBuffer_preserves s4 c).2.1
    rw [hw] at this
    exact this
  by_cases hic : s5.mesh.indexCount > 0
  · obtain ⟨s6, ev2, hw2⟩ := createIndexBuffer_ok s5 c (by rw [hm]; exact hi)
    simp only [uploadMeshBuffers, hw, if_pos hic, hw2]
    exact ⟨s6, ev ++ ev2, rfl⟩
  · simp only [uploadMeshBuffers, hw, if_neg hic]
    exact ⟨s5, ev, rfl⟩

/-- A result that succeeds still succeeds with events prefixed. -/
theorem prepend_ok_exists (EV : List REvent) (r : OpResult Unit)
    (h : ∃ s5 ev5, r = .ok s5 () ev5) :
    ∃ s2 ev2, prependEvents EV r = .ok s2 () ev2 := by
  obtain ⟨s5, ev5, rfl⟩ := h
  exact ⟨s5, EV ++ ev5, rfl⟩

/-- recreateGraphicsPipeline keeps the active mesh. -/
theorem recreateGraphicsPipeline_mesh (s : RendererState) :
    (recreateGraphicsPipeline s).1.mesh = s.mesh := by
  cases hgp : s.graphicsPipeline <;>
    simp [recreateGraphicsPipeline, hgp, createGraphicsPipeline]

/-- The setMesh body succeeds when both payloads fit the ring. -/
theorem setMeshApply_ok (s : RendererState) (c : Nat → Bool) (g : GeometryData)
    (hv : g.vertexData.length ≤ STAGING_RING_SIZE)
    (hi : g.indexData.length ≤ STAGING_RING_SIZE) :
    ∃ s2 ev, setMeshApply s c g = .ok s2 () ev := by
  simp only [setMeshApply]
  apply prepend_ok_exists
  apply uploadMeshBuffers_ok
  · split
    · exact hv
    · split
      · rw [recreateGraphicsPipeline_mesh]
        exact hv
      · exact hv
  · split
    · exact hi
    · split
      · rw [recreateGraphicsPipeline_mesh]
        exact hi
      · exact hi

/-- uploadMeshBuffers with an over-capacity vertex payload throws the ring
capacity error after the vertex buffer was created. -/
theorem uploadMeshBuffers_vertex_too_big (s4 : RendererState) (c : Nat → Bool)
    (h : s4.mesh.vertexData.length > STAGING_RING_SIZE) :
    uploadMeshBuffers s4 c =
      .err (flushCompletedTransfers
          { s4 with nextHandle := s4.nextHandle + 1, vertexBuffer := some s4.nextHandle } c)
        "Transfer size exceeds staging ring buffer capacity!"
        [REvent.createBuf s4.nextHandle] := by
  have h0 : ¬(s4.mesh.vertexData.length = 0) := by omega
  simp only [uploadMeshBuffers, createVertexBuffer, if_neg h0, transferToDeviceLocal,
    stagingRingWrite, if_pos h]

/-- Claim C3 (amended): setMesh raises a validation error before any state
mutation (the thrown-at state is the pre state and nothing happened) exactly
when the incoming geometry has zero binding stride, empty vertex data,
vertex byte count not divisible by the stride, or non-empty index data not
divisible by the index width (2 for UINT16, 4 for UINT32); when none of
these hold, the only error setMesh can still raise is the staging ring
capacity error (a vertex or index payload above 8 MiB), and a geometry with
both payloads within the ring capacity succeeds. -/
theorem c3_validation_errors_exact
    (s : RendererState) (c : Nat → Bool) (new : GeometryData) :
    (setMeshValidationFails new → ∃ msg, setMesh s c new = .err s msg []) ∧
    (¬ setMeshValidationFails new →
      (∀ s2 msg ev, setMesh s c new = .err s2 msg ev →
        msg = "Transfer size exceeds staging ring buffer capacity!") ∧
      (new.vertexData.length ≤ STAGING_RING_SIZE →
        new.indexData.length ≤ STAGING_RING_SIZE →
        ∃ s2 ev, setMesh s c new = .ok s2 () ev)) ∧
    indexStrideOf VK_INDEX_TYPE_UINT16 = 2 ∧ indexStrideOf VK_INDEX_TYPE_UINT32 = 4 := by
  refine ⟨?_, ?_, rfl, rfl⟩
  · intro h
    by_cases h1 : new.bindingDescription.stride = 0
    · exact ⟨_, by simp only [setMesh]; rw [if_pos h1]⟩
    by_cases h2 : new.vertexData = []
    · exact ⟨_, by simp only [setMesh]; rw [if_neg h1, if_pos h2]⟩
    by_cases h3 : new.vertexData.length % new.bindingDescription.stride ≠ 0
    · exact ⟨_, by simp only [setMesh]; rw [if_neg h1, if_neg h2, if_pos h3]⟩
    · have h4 : new.indexData ≠ [] ∧
          new.indexData.length % indexStrideOf new.indexType ≠ 0 := by
        rcases h with h | h | h | h
        · exact absurd h h1
        · exact absurd h h2
        · exact absurd h h3
        · exact h
      exact ⟨_, by
        simp only [setMesh]
        rw [if_neg h1, if_neg h2, if_neg h3]
        rw [if_pos h4]⟩
  · intro hnf
    have h1 : new.bindingDescription.stride ≠ 0 := fun h => hnf (Or.inl h)
    have h2 : new.vertexData ≠ [] := fun h => hnf (Or.inr (Or.inl h))
    have h3 : new.vertexData.length % new.bindingDescription.stride = 0 := by
      by_contra h
      exact hnf (Or.inr (Or.inr (Or.inl h)))
    have h4 : new.indexData = [] ∨
        new.indexData.length % indexStrideOf new.indexType = 0 := by
      by_cases hi : new.indexData = []
      · exact Or.inl hi
      · right
        by_contra h
        exact hnf (Or.inr (Or.inr (Or.inr ⟨hi, h⟩)))
    obtain ⟨Vr, hEq, -, -, -, hVv, hVi⟩ := setMesh_eq_apply s c new h1 h2 h3 h4
    constructor
    · intro s2 msg ev herr
      rw [hEq] at herr
      exact setMeshApply_err_msg _ _ _ _ _ _ herr
    · intro hv hi
      rw [hEq]
      exact setMeshApply_ok s c Vr (by rw [hVv]; exact hv) (by rw [hVi]; exact hi)

/-- Counterexample to claim C3 as stated: oversizedMesh satisfies none of
the claim's four error conditions (stride 8, non-empty divisible vertex
data, no indices), yet setMesh raises a hard error — the staging ring
capacity error — and at the throw point the renderer state has already
changed (a pipeline was created). -/
theorem c3_counterexample :
    ¬ setMeshValidationFails oversizedMesh ∧
    ∃ s2 ev, setMesh {} (fun _ => false) oversizedMesh =
      .err s2 "Transfer size exceeds staging ring buffer capacity!" ev ∧
      s2.graphicsPipeline ≠ ({} : RendererState).graphicsPipeline := by
  have hlen : oversizedMesh.vertexData.length = STAGING_RING_SIZE + 8 := by
    simp [oversizedMesh, List.length_replicate]
  have h1 : oversizedMesh.bindingDescription.stride ≠ 0 := by decide
  have h2 : oversizedMesh.vertexData ≠ [] := by
    intro h
    have h0 := hlen
    rw [h] at h0
    simp [STAGING_RING_SIZE] at h0
  have h3 : oversizedMesh.vertexData.length % oversizedMesh.bindingDescription.stride = 0 := by
    rw [hlen]
    have hs : oversizedMesh.bindingDescription.stride = 8 := rfl
    rw [hs]
    norm_num [STAGING_RING_SIZE]
  have h4 : oversizedMesh.indexData = [] ∨
      oversizedMesh.indexData.length % indexStrideOf oversizedMesh.indexType = 0 :=
    Or.inl rfl
  have hnf : ¬ setMeshValidationFails oversizedMesh := by
    intro h
    rcases h with h | h | h | h
    · exact h1 h
    · exact h2 h
    · exact h h3
    · exact h.1 rfl
  refine ⟨hnf, ?_⟩
  obtain ⟨Vr, hEq, -, -, -, hVv, hVi⟩ :=
    setMesh_eq_apply {} (fun _ => false) oversizedMesh h1 h2 h3 h4
  rw [hEq]
  have hVlen : Vr.vertexData.length = STAGING_RING_SIZE + 8 := by rw [hVv, hlen]
  have hb0 : ¬(Vr.vertexData.length = 0) := by omega
  have hbig : Vr.vertexData.length > STAGING_RING_SIZE := by omega
  simp only [setMeshApply, waitAllTransfers, destroyMeshBuffers, createGraphicsPipeline,
    uploadMeshBuffers, createVertexBuffer, transferToDeviceLocal, stagingRingWrite,
    flushCompletedTransfers, prependEvents, if_neg hb0, if_pos hbig, reduceIte]
  refine ⟨_, _, rfl, ?_⟩
  intro h
  cases h

/-- Witness for C5 at a one-vertex, three-index geometry. -/
theorem c5_encode_decode_roundtrip_witness :
    (∀ v ∈ [Vertex.mk (List.replicate 24 7)], v.bytes.length = 24) ∧
    0 < ([Vertex.mk (List.replicate 24 7)]).length ∧
    (tryRead (writeSharedGeometry noContentBuf [Vertex.mk (List.replicate 24 7)]
        [0, 1, 2] {} true) 0 {}).ok = true := by
  have hv : ∀ v ∈ [Vertex.mk (List.replicate 24 7)], v.bytes.length = 24 := by
    intro v hvm
    simp only [List.mem_singleton] at hvm
    subst hvm
    simp
  refine ⟨hv, by decide, ?_⟩
  exact (c5_encode_decode_roundtrip noContentBuf [Vertex.mk (List.replicate 24 7)]
    [0, 1, 2] {} 0 {} hv (by decide) (by decide) (by decide) rfl (by decide)).1

/-- Claim C9: when image acquisition reports an out-of-date swapchain,
drawFrame triggers swapchain recreation and returns without resetting the
current slot's fence (it stays signaled), without recording, submitting or
presenting, and without advancing currentFrame. -/
theorem c9_acquire_out_of_date_aborts_frame (s : RendererState) (pres : AcquireResult)
    (hslot : s.currentFrame < s.inFlightFencesSignaled.length) :
    ∃ s2 ev, drawFrame s .outOfDate pres = .ok s2 () ev ∧
      s2.currentFrame = s.currentFrame ∧
      s2.inFlightFencesSignaled.getD s.currentFrame false = true ∧
      REvent.recreateSwapchain ∈ ev ∧
      ∀ e ∈ ev, e ≠ REvent.resetFence s.currentFrame ∧
        e ≠ REvent.recordCommands ∧ e ≠ REvent.submitDraw ∧ e ≠ REvent.present := by
  have hget : (s.inFlightFencesSignaled.set s.currentFrame true).getD
      s.currentFrame false = true := by
    rw [List.getD_eq_getElem?_getD, List.getElem?_set_self (by omega), Option.getD_some]
  by_cases hgp : s.graphicsPipeline = none
  · have hc : drawFrame s .outOfDate pres =
        .ok (setFenceSignaled s s.currentFrame true) ()
          ([REvent.waitFence s.currentFrame, REvent.acquireImage] ++
            [REvent.recreateSwapchain]) := by
      simp only [drawFrame, reduceIte, recreateSwapChain, setFenceSignaled, hgp, ite_not]
    refine ⟨_, _, hc, rfl, hget, by simp, ?_⟩
    intro e he
    simp only [List.mem_append, List.mem_cons, List.not_mem_nil, or_false,
      List.mem_singleton] at he
    rcases he with (rfl | rfl) | rfl
    · exact ⟨(fun hx => nomatch hx), (fun hx => nomatch hx), (fun hx => nomatch hx),
        fun hx => nomatch hx⟩
    · exact ⟨(fun hx => nomatch hx), (fun hx => nomatch hx), (fun hx => nomatch hx),
        fun hx => nomatch hx⟩
    · exact ⟨(fun hx => nomatch hx), (fun hx => nomatch hx), (fun hx => nomatch hx),
        fun hx => nomatch hx⟩
  · obtain ⟨p, hp⟩ := Option.ne_none_iff_exists'.mp hgp
    have hc : drawFrame s .outOfDate pres =
        .ok { s with
              inFlightFencesSignaled := s.inFlightFencesSignaled.set s.currentFrame true
              graphicsPipeline := some s.nextHandle
              nextHandle := s.nextHandle + 1 } ()
          ([REvent.waitFence s.currentFrame, REvent.acquireImage] ++
            (REvent.recreateSwapchain ::
              ([REvent.destroyPipeline p] ++ [REvent.createPipeline s.nextHandle]))) := by
      simp only [drawFrame, reduceIte, recreateSwapChain, setFenceSignaled,
        recreateGraphicsPipeline, createGraphicsPipeline, hp, ite_not]
      rw [if_neg (by simp : ¬(some p = none : Prop))]
    refine ⟨_, _, hc, rfl, hget, by simp, ?_⟩
    intro e he
    simp only [List.mem_append, List.mem_cons, List.not_mem_nil, or_false,
      List.mem_singleton] at he
    rcases he with (rfl | rfl) | rfl | rfl | rfl
    · exact ⟨(fun hx => nomatch hx), (fun hx => nomatch hx), (fun hx => nomatch hx),
        fun hx => nomatch hx⟩
    · exact ⟨(fun hx => nomatch hx), (fun hx => nomatch hx), (fun hx => nomatch hx),
        fun hx => nomatch hx⟩
    · exact ⟨(fun hx => nomatch hx), (fun hx => nomatch hx), (fun hx => nomatch hx),
        fun hx => nomatch hx⟩
    · exact ⟨(fun hx => nomatch hx), (fun hx => nomatch hx), (fun hx => nomatch hx),
        fun hx => nomatch hx⟩
    · exact ⟨(fun hx => nomatch hx), (fun hx => nomatch hx), (fun hx => nomatch hx),
        fun hx => nomatch hx⟩

/-- Witness for C9 at the initial renderer state. -/
theorem c9_acquire_out_of_date_aborts_frame_witness :
    ({} : RendererState).currentFrame < ({} : RendererState).inFlightFencesSignaled.length ∧
    ∃ s2 ev, drawFrame {} .outOfDate .success = .ok s2 () ev ∧
      s2.currentFrame = ({} : RendererState).currentFrame ∧
      s2.inFlightFencesSignaled.getD ({} : RendererState).currentFrame false = true ∧
      REvent.recreateSwapchain ∈ ev ∧
      ∀ e ∈ ev, e ≠ REvent.resetFence ({} : RendererState).currentFrame ∧
        e ≠ REvent.recordCommands ∧ e ≠ REvent.submitDraw ∧ e ≠ REvent.present :=
  ⟨by decide, c9_acquire_out_of_date_aborts_frame {} .success (by decide)⟩

namespace Seqlock

/-- Two lists of the same length agreeing on getD at every index are equal. -/
theorem eq_of_getD (a b : List Nat) (hlen : a.length = b.length)
    (h : ∀ j, j < a.length → a.getD j 0 = b.getD j 0) : a = b := by
  apply List.ext_getElem hlen
  intro i h1 h2
  have hj := h i h1
  rw [List.getD_eq_getElem?_getD, List.getD_eq_getElem?_getD,
    List.getElem?_eq_getElem h1, List.getElem?_eq_getElem h2,
    Option.getD_some, Option.getD_some] at hj
  exact hj

/-- The protocol invariant: shared memory always holds n cells; every queued
publish has n cells; the sequence is even exactly when the writer is between
publishes; mid-publish the sequence is odd and the first i cells already
match the header being written; when the writer is idle the shared (seq,
fields) pair is a finished publish (or the initial zero state); the reader's
lastSequence never exceeds the current sequence; a mid-copy reader holds a
consistent partial copy whenever the sequence has not moved; and every
recorded successful read is a finished publish. -/
def Inv (n : Nat) (c : Config) : Prop :=
  c.shared.fields.length = n ∧
  (∀ h ∈ c.writer.pending, h.length = n) ∧
  (c.writer.pc = .idle → c.shared.seq % 2 = 0) ∧
  (∀ h i, c.writer.pc = .writing h i →
    c.shared.seq % 2 = 1 ∧ i ≤ n ∧ h.length = n ∧
    ∀ j, j < i → c.shared.fields.getD j 0 = h.getD j 0) ∧
  (c.writer.pc = .idle →
    (c.shared.seq = 0 ∧ c.hist = []) ∨ (c.shared.seq, c.shared.fields) ∈ c.hist) ∧
  c.reader.lastSequence ≤ c.shared.seq ∧
  (∀ s1 i loc, c.reader.pc = .copying s1 i loc →
    s1 ≤ c.shared.seq ∧ i ≤ n ∧ loc.length = i ∧
    s1 ≠ c.reader.lastSequence ∧ s1 % 2 = 0 ∧
    (c.shared.seq = s1 → ∀ j, j < i → loc.getD j 0 = c.shared.fields.getD j 0)) ∧
  (∀ p ∈ c.reader.reads, p ∈ c.hist)

/-- A writer step preserves the invariant. -/
theorem writerStep_inv (n : Nat) (c : Config) (hc : Inv n c) :
    Inv n (writerStep n c) := by
  obtain ⟨hflen, hpend, hie, hwr, hhist, hlast, hcopy, hreads⟩ := hc
  cases hpc : c.writer.pc with
  | idle =>
      cases hpd : c.writer.pending with
      | nil =>
          simp only [writerStep, hpc, hpd]
          exact ⟨hflen, hpend, hie, hwr, hhist, hlast, hcopy, hreads⟩
      | cons h rest =>
          have heven := hie hpc
          simp only [writerStep, hpc, hpd]
          unfold Inv
          dsimp only
          refine ⟨hflen, ?_, ?_, ?_, ?_, by omega, ?_, hreads⟩
          · intro h2 hh2
            exact hpend h2 (by rw [hpd]; exact List.mem_cons_of_mem _ hh2)
          · intro habs
            cases habs
          · intro h2 i2 heq
            cases heq
            refine ⟨by omega, by omega,
              hpend h (by rw [hpd]; exact List.mem_cons_self _ _), ?_⟩
            intro j hj
            omega
          · intro habs
            cases habs
          · intro s1 i loc hcp
            obtain ⟨hs1, hi, hloc, hne, hev, hagree⟩ := hcopy s1 i loc hcp
            exact ⟨by omega, hi, hloc, hne, hev, fun hseq => by omega⟩
  | writing h i =>
      obtain ⟨hodd, hin, hhlen, hfh⟩ := hwr h i hpc
      by_cases hlt : i < n
      · simp only [writerStep, hpc, if_pos hlt]
        unfold Inv
        dsimp only
        refine ⟨by rw [List.length_set]; exact hflen, hpend, ?_, ?_, ?_, hlast, ?_, hreads⟩
        · intro habs
          cases habs
        · intro h2 i2 heq
          cases heq
          refine ⟨hodd, by omega, hhlen, ?_⟩
          intro j hj
          by_cases hji : j = i
          · subst hji
            rw [List.getD_eq_getElem?_getD, List.getElem?_set_self (by omega),
              Option.getD_some]
          · rw [List.getD_eq_getElem?_getD, List.getElem?_set_ne (fun hx => hji hx.symm),
              ← List.getD_eq_getElem?_getD]
            exact hfh j (by omega)
        · intro habs
          cases habs
        · intro s1 i2 loc hcp
          obtain ⟨hs1, hi2, hloc, hne, hev, hagree⟩ := hcopy s1 i2 loc hcp
          refine ⟨hs1, hi2, hloc, hne, hev, ?_⟩
          intro hseq
          omega
      · simp only [writerStep, hpc, if_neg hlt]
        have hin2 : i = n := by omega
        have hfields : c.shared.fields = h := by
          apply eq_of_getD _ _ (by rw [hflen, hhlen])
          intro j hj
          exact hfh j (by omega)
        unfold Inv
        dsimp only
        refine ⟨hflen, hpend, fun _ => by omega, ?_, ?_, by omega, ?_, ?_⟩
        · intro h2 i2 habs
          cases habs
        · intro _
          right
          rw [hfields]
          exact List.mem_cons_self _ _
        · intro s1 i2 loc hcp
          obtain ⟨hs1, hi2, hloc, hne, hev, hagree⟩ := hcopy s1 i2 loc hcp
          exact ⟨by omega, hi2, hloc, hne, hev, fun hseq => by omega⟩
        · intro p hp
          exact List.mem_cons_of_mem _ (hreads p hp)

/-- A reader step preserves the invariant. -/
theorem readerStep_inv (n : Nat) (c : Config) (hc : Inv n c) :
    Inv n (readerStep n c) := by
  obtain ⟨hflen, hpend, hie, hwr, hhist, hlast, hcopy, hreads⟩ := hc
  cases hpc : c.reader.pc with
  | idle =>
      by_cases hcond : c.shared.seq = c.reader.lastSequence ∨ c.shared.seq % 2 ≠ 0
      · simp only [readerStep, hpc, if_pos hcond]
        exact ⟨hflen, hpend, hie, hwr, hhist, hlast, hcopy, hreads⟩
      · simp only [readerStep, hpc, if_neg hcond]
        push_neg at hcond
        unfold Inv
        dsimp only
        refine ⟨hflen, hpend, hie, hwr, hhist, hlast, ?_, hreads⟩
        intro s1 i loc hcp
        cases hcp
        refine ⟨le_refl _, by omega, rfl, hcond.1, by omega, ?_⟩
        intro _ j hj
        omega
  | copying s1 i loc =>
      obtain ⟨hs1, hi, hloc, hne, hev, hagree⟩ := hcopy s1 i loc hpc
      by_cases hlt : i < n
      · simp only [readerStep, hpc, if_pos hlt]
        unfold Inv
        dsimp only
        refine ⟨hflen, hpend, hie, hwr, hhist, hlast, ?_, hreads⟩
        intro s2 i2 loc2 hcp
        cases hcp
        refine ⟨hs1, by omega, by simp [hloc], hne, hev, ?_⟩
        intro hseq j hj
        by_cases hji : j = i
        · subst hji
          rw [List.getD_eq_getElem?_getD, List.getElem?_append_right (by omega), hloc,
            Nat.sub_self]
          rfl
        · rw [List.getD_eq_getElem?_getD, List.getElem?_append_left (by omega),
            ← List.getD_eq_getElem?_getD]
          exact hagree hseq j (by omega)
      · by_cases hcond : s1 ≠ c.shared.seq ∨ c.shared.seq % 2 ≠ 0
        · simp only [readerStep, hpc, if_neg hlt, if_pos hcond]
          unfold Inv
          dsimp only
          refine ⟨hflen, hpend, hie, hwr, hhist, hlast, ?_, hreads⟩
          intro s2 i2 loc2 habs
          cases habs
        · simp only [readerStep, hpc, if_neg hlt, if_neg hcond]
          push_neg at hcond
          obtain ⟨hseq, heven⟩ := hcond
          unfold Inv
          dsimp only
          refine ⟨hflen, hpend, hie, hwr, hhist, by omega, ?_, ?_⟩
          · intro s2 i2 loc2 habs
            cases habs
          · intro p hp
            rcases List.mem_cons.mp hp with hp | hp
            · subst hp
              cases hw : c.writer.pc with
              | writing h2 i2 =>
                  obtain ⟨hodd, -, -, -⟩ := hwr h2 i2 hw
                  omega
              | idle =>
                  rcases hhist hw with ⟨hseq0, -⟩ | hmem
                  · omega
                  · have hlocf : loc = c.shared.fields := by
                      apply eq_of_getD _ _ (by rw [hloc, hflen]; omega)
                      intro j hj
                      exact hagree hseq.symm j (by omega)
                    rw [← hseq, ← hlocf] at hmem
                    exact hmem
            · exact hreads p hp

/-- Any interleaving step preserves the invariant. -/
theorem step_inv (n : Nat) (c : Config) (w : Who) (hc : Inv n c) :
    Inv n (step n c w) := by
  cases w with
  | w => exact writerStep_inv n c hc
  | r => exact readerStep_inv n c hc

/-- Running any schedule preserves the invariant. -/
theorem run_inv (n : Nat) (sched : List Who) :
    ∀ c : Config, Inv n c → Inv n (run n c sched) := by
  induction sched with
  | nil =>
      intro c hc
      exact hc
  | cons w ws ih =>
      intro c hc
      rw [run, List.foldl_cons]
      exact ih (step n c w) (step_inv n c w hc)

/-- The initial configuration satisfies the invariant. -/
theorem init_inv (n : Nat) (pubs : List (List Nat))
    (hp : ∀ h ∈ pubs, h.length = n) : Inv n (init n pubs) := by
  refine ⟨List.length_replicate _ _, hp, fun _ => rfl, ?_, ?_, le_refl _, ?_, ?_⟩
  · intro h i habs
    cases habs
  · intro _
    exact Or.inl ⟨rfl, rfl⟩
  · intro s1 i loc habs
    cases habs
  · intro p hp2
    cases hp2

end Seqlock

/-- Claim C1: for every interleaving of the writer's publish steps with the
reader's tryRead steps, every successful read's header copy is exactly the
complete header written by a single finished publish: the ghost list of
successful reads is contained in the ghost history of finished publishes,
so tryRead never acts on a torn header. -/
theorem c1_seqlock_reader_never_sees_torn_header (n : Nat)
    (pubs : List (List Nat)) (sched : List Seqlock.Who)
    (hp : ∀ h ∈ pubs, h.length = n) :
    ∀ p ∈ (Seqlock.run n (Seqlock.init n pubs) sched).reader.reads,
      p ∈ (Seqlock.run n (Seqlock.init n pubs) sched).hist :=
  (Seqlock.run_inv n sched _ (Seqlock.init_inv n pubs hp)).2.2.2.2.2.2.2

/-- Witness for C1: a two-field publish fully interleaved with a read. -/
theorem c1_seqlock_reader_never_sees_torn_header_witness :
    (∀ h ∈ [[5, 6]], List.length h = 2) ∧
    (2, [5, 6]) ∈ (Seqlock.run 2 (Seqlock.init 2 [[5, 6]])
      [.w, .w, .w, .w, .r, .r, .r, .r]).reader.reads ∧
    (2, [5, 6]) ∈ (Seqlock.run 2 (Seqlock.init 2 [[5, 6]])
      [.w, .w, .w, .w, .r, .r, .r, .r]).hist := by
  have hp : ∀ h ∈ [[5, 6]], List.length h = 2 := by decide
  have hm : (2, [5, 6]) ∈ (Seqlock.run 2 (Seqlock.init 2 [[5, 6]])
      [.w, .w, .w, .w, .r, .r, .r, .r]).reader.reads := by decide
  exact ⟨hp, hm,
    c1_seqlock_reader_never_sees_torn_header 2 [[5, 6]]
      [.w, .w, .w, .w, .r, .r, .r, .r] hp _ hm⟩


end VisEngine
